import Mathlib

/-!
Verification of the cursor/value-marshaling core of the cubrid_db C extension
(`src/cubrid_ext/python_cubrid.c`) against its natural-language specification.

The C code is shallowly embedded: every embedded definition mirrors the control
flow of the correspondingly named C function.  Results of calls into the
external CCI transport library (an external collaborator of this repository)
are supplied either as explicit oracle arguments or through a small concrete
model of the server-side result set, written from the transport contract the
spec gives in its external-interfaces section.  Machine integers are modelled
as `Int`; the build targets LP64 platforms, so the C `long` is 64-bit.
-/

namespace Cubrid

/-! ### External and header constants

The numeric values of the CCI library error codes and of the client error
codes (the latter live in `python_cubrid.h`, which only declares constants)
are not used by any property below; they are fixed here as distinct integers
arranged so that the facility thresholds order the ranges the way the driver
expects: CAS codes above `CAS_ER_IS`, CCI codes above `CCI_ER_END`, client
codes between `CUBRID_ER_END` and `CCI_ER_END`. -/

def CCI_ER_DBMS : Int := -20001

def CCI_ER_END : Int := -20100

def CAS_ER_IS : Int := -1100

def CCI_ER_NO_MORE_DATA : Int := -18

def CAS_ER_NO_MORE_RESULT_SET : Int := -1015

def CUBRID_ER_NO_MORE_MEMORY : Int := -21001

def CUBRID_ER_INVALID_SQL_TYPE : Int := -21002

def CUBRID_ER_CANNOT_GET_COLUMN_INFO : Int := -21003

def CUBRID_ER_INIT_ARRAY_FAIL : Int := -21004

def CUBRID_ER_UNKNOWN_TYPE : Int := -21005

def CUBRID_ER_INVALID_PARAM : Int := -21006

def CUBRID_ER_INVALID_ARRAY_TYPE : Int := -21007

def CUBRID_ER_NOT_SUPPORTED_TYPE : Int := -21008

def CUBRID_ER_OPEN_FILE : Int := -21009

def CUBRID_ER_CREATE_TEMP_FILE : Int := -21010

def CUBRID_ER_INVALID_CURSOR_POS : Int := -21011

def CUBRID_ER_SQL_UNPREPARE : Int := -21012

def CUBRID_ER_PARAM_UNBIND : Int := -21013

def CUBRID_ER_SCHEMA_TYPE : Int := -21014

def CUBRID_ER_READ_FILE : Int := -21015

def CUBRID_ER_WRITE_FILE : Int := -21016

def CUBRID_ER_LOB_NOT_EXIST : Int := -21017

def CUBRID_ER_INVALID_CURSOR : Int := -21018

def CUBRID_ER_END : Int := -22000

/-! Wire (`CCI_U_TYPE`) codes, as documented in the driver's own
`result_info` doc string; `DATETIME`, `BIGINT`, `BLOB`, `CLOB` are later
additions of the CCI header with values unused by the claims. -/

def CCI_U_TYPE_CHAR : Int := 1

def CCI_U_TYPE_STRING : Int := 2

def CCI_U_TYPE_NCHAR : Int := 3

def CCI_U_TYPE_VARNCHAR : Int := 4

def CCI_U_TYPE_BIT : Int := 5

def CCI_U_TYPE_VARBIT : Int := 6

def CCI_U_TYPE_NUMERIC : Int := 7

def CCI_U_TYPE_INT : Int := 8

def CCI_U_TYPE_SHORT : Int := 9

def CCI_U_TYPE_MONETARY : Int := 10

def CCI_U_TYPE_FLOAT : Int := 11

def CCI_U_TYPE_DOUBLE : Int := 12

def CCI_U_TYPE_DATE : Int := 13

def CCI_U_TYPE_TIME : Int := 14

def CCI_U_TYPE_TIMESTAMP : Int := 15

def CCI_U_TYPE_OBJECT : Int := 19

def CCI_U_TYPE_BIGINT : Int := 21

def CCI_U_TYPE_DATETIME : Int := 22

def CCI_U_TYPE_SET : Int := 32

def CCI_U_TYPE_MULTISET : Int := 64

def CCI_U_TYPE_SEQUENCE : Int := 96

def CCI_U_TYPE_BLOB : Int := 254

def CCI_U_TYPE_CLOB : Int := 255

/-- Collection test used when dispatching a column (CCI macro
`CCI_IS_COLLECTION_TYPE`). -/
def CCI_IS_COLLECTION_TYPE (t : Int) : Bool :=
  t = CCI_U_TYPE_SET || t = CCI_U_TYPE_MULTISET || t = CCI_U_TYPE_SEQUENCE

/-- SET-vs-LIST test used when materialising a fetched collection (CCI macro
`CCI_IS_SET_TYPE`). -/
def CCI_IS_SET_TYPE (t : Int) : Bool := t = CCI_U_TYPE_SET

/-! Access (`CCI_A_TYPE`) codes: distinct tags, values immaterial. -/

def CCI_A_TYPE_STR : Int := 1

def CCI_A_TYPE_INT : Int := 2

def CCI_A_TYPE_FLOAT : Int := 3

def CCI_A_TYPE_DOUBLE : Int := 4

def CCI_A_TYPE_BIT : Int := 5

def CCI_A_TYPE_DATE : Int := 6

def CCI_A_TYPE_SET : Int := 7

def CCI_A_TYPE_BIGINT : Int := 8

def CCI_A_TYPE_BLOB : Int := 9

def CCI_A_TYPE_CLOB : Int := 10

/-! Statement-kind (`T_CCI_SQLX_CMD`) codes: distinct tags. -/

def SQLX_CMD_SELECT : Int := 21

def SQLX_CMD_INSERT : Int := 20

def SQLX_CMD_UPDATE : Int := 19

def SQLX_CMD_DELETE : Int := 18

def SQLX_CMD_CALL : Int := 28

/-! ### Error translator (`handle_error`, `get_error_msg`) -/

/-- Kinds of exception object raised by the module (the module-level
exception classes registered at bootstrap). -/
inductive ExcKind where
  | Error
  | InterfaceError
  | DatabaseError
  | DataError
  | OperationalError
  | IntegrityError
  | InternalError
  | ProgrammingError
  | NotSupportedError
  | OverflowError
  | ValueError
  | SystemNull
  deriving DecidableEq, Repr

/-- A raised Python exception: class, numeric code, formatted message. -/
structure PyErr where
  kind : ExcKind
  code : Int
  msg : String
  deriving DecidableEq, Repr

/-- Server diagnostic payload (`T_CCI_ERROR`). -/
structure TCCIError where
  err_code : Int
  err_msg : String
  deriving DecidableEq, Repr

/-- The static client error-code/message table `cubrid_err_msgs`. -/
def cubrid_err_msgs : List (Int × String) :=
  [ (CUBRID_ER_NO_MORE_MEMORY, "Memory allocation error"),
    (CUBRID_ER_INVALID_SQL_TYPE, "Invalid API call"),
    (CUBRID_ER_CANNOT_GET_COLUMN_INFO, "Cannot get column info"),
    (CUBRID_ER_INIT_ARRAY_FAIL, "Array initializing error"),
    (CUBRID_ER_UNKNOWN_TYPE, "Unknown column type"),
    (CUBRID_ER_INVALID_PARAM, "Invalid parameter"),
    (CUBRID_ER_INVALID_ARRAY_TYPE, "Invalid array type"),
    (CUBRID_ER_NOT_SUPPORTED_TYPE, "Invalid type"),
    (CUBRID_ER_OPEN_FILE, "File open error"),
    (CUBRID_ER_CREATE_TEMP_FILE, "Temporary file open error"),
    (CUBRID_ER_INVALID_CURSOR_POS, "Invalid cursor position"),
    (CUBRID_ER_SQL_UNPREPARE, "SQL statement not prepared"),
    (CUBRID_ER_PARAM_UNBIND, "Some parameter not binded"),
    (CUBRID_ER_SCHEMA_TYPE, "Invalid schema type"),
    (CUBRID_ER_READ_FILE, "Can not read file"),
    (CUBRID_ER_WRITE_FILE, "Can not write file"),
    (CUBRID_ER_LOB_NOT_EXIST, "LOB not exist"),
    (CUBRID_ER_INVALID_CURSOR,
      "The cursor has been closed. No operation is allowed any more.") ]

/-- `get_error_msg`: codes above `CCI_ER_END` are delegated to the CCI
library's own lookup (supplied as the oracle `cciMsg`, `none` modelling a
negative return); others are resolved from the static table. -/
def get_error_msg (cciMsg : Int → Option String) (err_code : Int) :
    Option String :=
  if err_code > CCI_ER_END then cciMsg err_code
  else (cubrid_err_msgs.find? (fun p => p.1 = err_code)).map (·.2)

/-- Classification of a DBMS diagnostic code; mirrors the `switch` over
`error->err_code` in `handle_error`. -/
def dbmsExcKind (c : Int) : ExcKind :=
  if c = -493 then .ProgrammingError
  else if c = -669 ∨ c = -673 ∨ c = -677 ∨ c = -1069 ∨ c = -1071 then
    .OperationalError
  else if c = -205 ∨ c = -494 ∨ c = -631 ∨ c = -670 ∨ c = -886 ∨ c = -919 ∨
      c = -920 ∨ c = -921 ∨ c = -922 ∨ c = -923 ∨ c = -924 ∨ c = -1063 ∨
      c = -1067 then
    .IntegrityError
  else .DatabaseError

/-- Facility tag computed from the three threshold constants. -/
def facilityOf (e : Int) : String :=
  if e > CAS_ER_IS then "CAS"
  else if e > CCI_ER_END then "CCI"
  else if e > CUBRID_ER_END then "CLIENT"
  else "UNKNOWN"

/-- `handle_error`: translate a transport error code plus optional diagnostic
payload into the exception that is raised. -/
def handle_error (cciMsg : Int → Option String) (e : Int)
    (error : Option TCCIError) : PyErr :=
  if e = CCI_ER_DBMS then
    match error with
    | some err =>
        { kind := dbmsExcKind err.err_code
          code := err.err_code
          msg := "ERROR: DBMS, " ++ toString err.err_code ++ ", " ++
            err.err_msg }
    | none =>
        { kind := .NotSupportedError
          code := 0
          msg := "ERROR: DBMS, 0, Unknown DBMS Error" }
  else
    let err_msg :=
      match get_error_msg cciMsg e with
      | some m => m
      | none => "Unknown Error"
    { kind := .InterfaceError
      code := e
      msg := "ERROR: " ++ facilityOf e ++ ", " ++ toString e ++ ", " ++
        err_msg }

/-- Every C call site of `handle_error` is `return handle_error (...)`: the
function installs the exception and returns the null object, so the caller
signals the exception rather than producing a value. -/
def handle_error_raises (cciMsg : Int → Option String) (e : Int)
    (error : Option TCCIError) : Except PyErr Unit :=
  .error (handle_error cciMsg e error)

/-! ### Host values and the transport's per-value accessor -/

/-- Host-language (Python) values produced by the decode paths.  A float or
decimal is kept as the text it was parsed from (the decoder hands the raw
text to `PyFloat_FromString` / `Decimal`), which keeps the embedding exact. -/
inductive PyVal where
  | none
  | int (n : Int)
  | float (s : String)
  | decimal (s : String)
  | str (s : String)
  | bytes (bs : List Nat)
  | date (y mo d : Int)
  | time (h mi s us : Int)
  | datetime (y mo d h mi s us : Int)
  | tuple (xs : List PyVal)
  | pylist (xs : List PyVal)
  | pyset (xs : List PyVal)
  | dict (xs : List (String × PyVal))
  deriving Repr, BEq

/-- Date/time struct filled by `cci_get_data` with `CCI_A_TYPE_DATE`
(`T_CCI_DATE`). -/
structure CCIDate where
  yr : Int
  mon : Int
  day : Int
  hh : Int
  mm : Int
  ss : Int
  ms : Int
  deriving DecidableEq, Repr

/-- Outcome of one `cci_get_data` call: the return code, the null indicator
and the out-parameter's content (which, like the C out-parameter, is present
even when it is not meaningful). -/
structure Got (α : Type) where
  res : Int
  ind : Int
  val : α
  deriving DecidableEq, Repr

/-- One column value of the current row, as seen through the transport: what
`cci_get_data` would report for each access kind requested on it. -/
structure Cell where
  asStr : Got String
  asInt : Got Int
  asBigint : Got Int
  asDate : Got CCIDate
  asSet : Got (List (Option String))
  asBlob : Got Int
  asClob : Got Int
  deriving Repr

/-- Neutral cell used where C would read through an out-of-range pointer. -/
def Cell.dflt : Cell :=
  { asStr := ⟨0, 0, ""⟩
    asInt := ⟨0, 0, 0⟩
    asBigint := ⟨0, 0, 0⟩
    asDate := ⟨0, 0, ⟨0, 0, 0, 0, 0, 0, 0⟩⟩
    asSet := ⟨0, 0, []⟩
    asBlob := ⟨0, 0, 0⟩
    asClob := ⟨0, 0, 0⟩ }

/-- Value of one hexadecimal digit, as `strtoul` base 16 reads it (any
non-digit terminates the number, contributing zero). -/
def hexDigitVal (c : Char) : Option Nat :=
  if '0' ≤ c ∧ c ≤ '9' then some (c.toNat - '0'.toNat)
  else if 'a' ≤ c ∧ c ≤ 'f' then some (c.toNat - 'a'.toNat + 10)
  else if 'A' ≤ c ∧ c ≤ 'F' then some (c.toNat - 'A'.toNat + 10)
  else Option.none

/-- `strtoul (two-character buffer, base 16)` as the BIT decode loop uses it:
parse up to two hex digits, stopping at the first non-digit. -/
def hexPairVal (c1 c2 : Char) : Nat :=
  match hexDigitVal c1 with
  | Option.none => 0
  | some h1 =>
      match hexDigitVal c2 with
      | Option.none => h1
      | some h2 => 16 * h1 + h2

/-- The BIT/VARBIT decode loop: pair up the hex characters of the server's
text into bytes.  The bytes object is built from `strlen / 2` bytes. -/
def hexStrToBytes : List Char → List Nat
  | [] => []
  | [_] => []
  | c1 :: c2 :: rest => hexPairVal c1 c2 :: hexStrToBytes rest

/-- Cursor lifecycle states (`CURSOR_STATE_OPENED` / `CURSOR_STATE_CLOSED`). -/
inductive CursorState where
  | opened
  | closed
  deriving DecidableEq, Repr

/-! ### Column decode (`_cubrid_CursorObject_dbval_to_pyvalue`)

`dec charset raw` models `PyUnicode_Decode (raw, strlen raw, charset, NULL)`
(`none` = decode failure); `cciMsg` is the CCI message-lookup oracle used by
`handle_error`. -/

def dbval_to_pyvalue (cciMsg : Int → Option String)
    (dec : String → String → Option String) (state : CursorState)
    (charset : String) (type : Int) (cell : Cell) : Except PyErr PyVal :=
  if state = .closed then
    .error (handle_error cciMsg CUBRID_ER_INVALID_CURSOR Option.none)
  else if type = CCI_U_TYPE_BIT ∨ type = CCI_U_TYPE_VARBIT then
    let g := cell.asStr
    if g.res < 0 then .error (handle_error cciMsg g.res Option.none)
    else if g.ind < 0 then .ok .none
    else .ok (.bytes (hexStrToBytes g.val.data))
  else if type = CCI_U_TYPE_INT ∨ type = CCI_U_TYPE_SHORT then
    let g := cell.asInt
    if g.res < 0 then .error (handle_error cciMsg g.res Option.none)
    else if g.ind < 0 then .ok .none
    else .ok (.int g.val)
  else if type = CCI_U_TYPE_BIGINT then
    let g := cell.asBigint
    if g.res < 0 then .error (handle_error cciMsg g.res Option.none)
    else if g.ind < 0 then .ok .none
    else .ok (.int g.val)
  else if type = CCI_U_TYPE_FLOAT ∨ type = CCI_U_TYPE_DOUBLE then
    let g := cell.asStr
    if g.res < 0 then .error (handle_error cciMsg g.res Option.none)
    else if g.ind < 0 then .ok .none
    else .ok (.float g.val)
  else if type = CCI_U_TYPE_NUMERIC then
    let g := cell.asStr
    if g.res < 0 then .error (handle_error cciMsg g.res Option.none)
    else if g.ind < 0 then .ok .none
    else .ok (.decimal g.val)
  else if type = CCI_U_TYPE_DATE then
    let g := cell.asDate
    if g.res < 0 then .error (handle_error cciMsg g.res Option.none)
    else if g.ind < 0 then .ok .none
    else .ok (.date g.val.yr g.val.mon g.val.day)
  else if type = CCI_U_TYPE_TIME then
    let g := cell.asDate
    if g.res < 0 then .error (handle_error cciMsg g.res Option.none)
    else if g.ind < 0 then .ok .none
    else .ok (.time g.val.hh g.val.mm g.val.ss 0)
  else if type = CCI_U_TYPE_DATETIME then
    let g := cell.asDate
    if g.res < 0 then .error (handle_error cciMsg g.res Option.none)
    else if g.ind < 0 then .ok .none
    else
      .ok (.datetime g.val.yr g.val.mon g.val.day g.val.hh g.val.mm g.val.ss
        (g.val.ms * 1000))
  else if type = CCI_U_TYPE_TIMESTAMP then
    let g := cell.asDate
    if g.res < 0 then .error (handle_error cciMsg g.res Option.none)
    else if g.ind < 0 then .ok .none
    else
      .ok (.datetime g.val.yr g.val.mon g.val.day g.val.hh g.val.mm g.val.ss 0)
  else if type = 130 ∨ type = CCI_U_TYPE_CHAR ∨ type = CCI_U_TYPE_STRING then
    let g := cell.asStr
    if g.res < 0 then .error (handle_error cciMsg g.res Option.none)
    else if g.ind < 0 then .ok .none
    else
      match dec charset g.val with
      | some s => .ok (.str s)
      | Option.none => .error ⟨.ValueError, 0, "String decoding failed"⟩
  else
    -- unrecognized type: legacy fallback, try int, then date struct, then str
    let gi := cell.asInt
    if gi.res = 0 then
      if gi.ind < 0 then .ok .none
      else .ok (.int gi.val)
    else
      let gd := cell.asDate
      if gd.res = 0 then
        -- note: when `gd.ind < 0` the C code assigns Py_None to `val` but
        -- does not return it; it falls through and interprets the struct
        let dt := gd.val
        if dt.yr = 0 then .ok (.time dt.hh dt.mm dt.ss (dt.ms * 1000))
        else if dt.hh = 0 ∧ dt.mm = 0 ∧ dt.ss = 0 ∧ dt.ms = 0 then
          .ok (.date dt.yr dt.mon dt.day)
        else
          .ok (.datetime dt.yr dt.mon dt.day dt.hh dt.mm dt.ss (dt.ms * 1000))
      else
        let g := cell.asStr
        if g.res < 0 then .error (handle_error cciMsg g.res Option.none)
        else if g.ind < 0 then .ok .none
        else
          match dec charset g.val with
          | some s => .ok (.str s)
          | Option.none => .error ⟨.ValueError, 0, "String decoding failed"⟩

/-- Replace-or-append on a key-value list: `PyMapping_SetItemString`
(last duplicate wins). -/
def dictSet (xs : List (String × PyVal)) (k : String) (v : PyVal) :
    List (String × PyVal) :=
  if xs.any (fun p => p.1 = k) then
    xs.map (fun p => if p.1 = k then (k, v) else p)
  else xs ++ [(k, v)]

/-- Collection-column decode (`_cubrid_CursorObject_dbset_to_pyvalue`):
materialise every element as text, then build a Python set or list according
to `CCI_IS_SET_TYPE`.  A `NULL` element buffer becomes the empty string. -/
def dbset_to_pyvalue (cciMsg : Int → Option String)
    (dec : String → String → Option String) (state : CursorState)
    (charset : String) (type : Int) (cell : Cell) : Except PyErr PyVal :=
  if state = .closed then
    .error (handle_error cciMsg CUBRID_ER_INVALID_CURSOR Option.none)
  else
    let g := cell.asSet
    if g.res < 0 then .error (handle_error cciMsg g.res Option.none)
    else if g.ind < 0 then .ok .none
    else
      let decoded : Except PyErr (List PyVal) :=
        g.val.foldlM (fun acc buffer =>
          match buffer with
          | Option.none => .ok (acc ++ [PyVal.str ""])
          | some b =>
              match dec charset b with
              | some s => .ok (acc ++ [PyVal.str s])
              | Option.none =>
                  .error (handle_error cciMsg 0 Option.none)) []
      match decoded with
      | .error e => .error e
      | .ok es =>
          if CCI_IS_SET_TYPE type then .ok (.pyset es) else .ok (.pylist es)

/-! ### Cursor data model -/

/-- Column descriptor, as read through the `CCI_GET_RESULT_INFO_*` macros. -/
structure ColInfo where
  type : Int
  name : String
  precision : Int
  scale : Int
  is_non_null : Int
  attr_name : String
  class_name : String
  default_value : String
  is_auto_increment : Int
  is_unique_key : Int
  is_primary_key : Int
  is_foreign_key : Int
  is_reverse_index : Int
  is_reverse_unique : Int
  is_shared : Int
  deriving DecidableEq, Repr

def ColInfo.dflt : ColInfo :=
  ⟨0, "", 0, 0, 0, "", "", "", 0, 0, 0, 0, 0, 0, 0⟩

/-- Read one column descriptor (1-based index), as the C macros index
`col_info`. -/
def resultInfoAt (ci : Option (List ColInfo)) (i : Int) : ColInfo :=
  (ci.getD []).getD (i - 1).toNat ColInfo.dflt

/-- One entry of the DB-API `description` 7-tuple:
`(name, type, 0, 0, precision, scale, nullable)`. -/
structure DescItem where
  name : String
  datatype : Int
  displaySize : Int
  internalSize : Int
  precision : Int
  scale : Int
  nullable : Int
  deriving DecidableEq, Repr

/-- The C `description` field is `Py_None` after init, `NULL` after a reset,
and a tuple after a SELECT execution. -/
inductive DescState where
  | pyNone
  | cleared
  | items (l : List DescItem)
  deriving DecidableEq, Repr

/-- The mutable state of `_cubrid_CursorObject`. -/
structure Cursor where
  state : CursorState
  handle : Int
  connection : Int
  description : DescState
  bind_num : Int
  col_count : Int
  sql_type : Int
  row_count : Int
  cursor_pos : Int
  charset : String
  col_info : Option (List ColInfo)
  deriving Repr

/-- `_cubrid_CursorObject_init`: the state of a freshly created cursor. -/
def Cursor.init (connHandle : Int) : Cursor :=
  { state := .opened
    handle := 0
    connection := connHandle
    description := .pyNone
    bind_num := -1
    col_count := -1
    sql_type := 0
    row_count := -1
    cursor_pos := 0
    charset := "utf8"
    col_info := Option.none }

/-- Transport calls observable from outside (used to state ordering
properties of the implicit reset). -/
inductive Ev where
  | closeReqHandle (h : Int)
  | cciPrepare (conn : Int) (sql : String)
  deriving DecidableEq, Repr

/-- `_cubrid_CursorObject_reset`: release the statement handle and drop the
per-statement fields; a no-op when no handle is held. -/
def reset (c : Cursor) : Cursor × List Ev :=
  if c.handle ≠ 0 then
    ({ c with
        handle := 0
        description := .cleared
        bind_num := -1
        col_count := -1
        sql_type := 0
        row_count := -1
        cursor_pos := 0 },
      [.closeReqHandle c.handle])
  else (c, [])

/-! ### Concrete model of the server-side result set

The transport itself is an external collaborator; `cci_cursor` is modelled
from the contract the spec states for `cursorAdvance(stmt, amount, mode) ->
statusOrNoMoreData`: a 1-based cursor over the fetched rows, relative or
absolute moves, `CCI_ER_NO_MORE_DATA` when the target position leaves the
result set (the cursor still moves, which is what makes end-of-data
sticky). -/

structure ResultSet where
  rows : List (List Cell)
  pos : Int
  fetchRes : Int
  deriving Repr

inductive CursorOrigin where
  | current
  | first
  deriving DecidableEq, Repr

def cci_cursor (rs : ResultSet) (offset : Int) (origin : CursorOrigin) :
    Int × ResultSet :=
  let np := match origin with
    | .current => rs.pos + offset
    | .first => offset
  if 1 ≤ np ∧ np ≤ (rs.rows.length : Int) then (0, { rs with pos := np })
  else (CCI_ER_NO_MORE_DATA, { rs with pos := np })

/-- `cci_fetch`: materialise the current row into the client buffers; its
return code is part of the modelled transport state. -/
def cci_fetch (rs : ResultSet) : Int := rs.fetchRes

/-- The row the per-column accessors read after `cci_fetch`. -/
def currentRow (rs : ResultSet) : List Cell :=
  rs.rows.getD (rs.pos - 1).toNat []

/-! ### Cursor operations -/

/-- `_cubrid_CursorObject_set_description`. -/
def set_description (c : Cursor) : Cursor :=
  if c.state = .closed then c
  else if c.col_count = 0 then { c with description := .items [] }
  else
    let items := (List.range c.col_count.toNat).map (fun (j : Nat) =>
      let ci := resultInfoAt c.col_info ((j : Int) + 1)
      ({ name := ci.name
         datatype := ci.type
         displaySize := 0
         internalSize := 0
         precision := ci.precision
         scale := ci.scale
         nullable := if ci.is_non_null ≠ 0 then 0 else 1 } : DescItem))
    { c with description := .items items }

/-- Results of the external calls `cci_prepare` / `cci_get_bind_num` make. -/
structure PrepOracle where
  prepare_res : Int
  prepare_err : TCCIError
  bind_num_res : Int
  deriving Repr

/-- `_cubrid_CursorObject_prepare`. -/
def cursor_prepare (cciMsg : Int → Option String) (c : Cursor)
    (o : PrepOracle) (sql : String) :
    Except PyErr Unit × Cursor × List Ev :=
  if c.state = .closed then
    (.error (handle_error cciMsg CUBRID_ER_INVALID_CURSOR Option.none), c, [])
  else
    let (c1, tr) := reset c
    let tr2 := tr ++ [Ev.cciPrepare c.connection sql]
    if o.prepare_res < 0 then
      (.error (handle_error cciMsg o.prepare_res (some o.prepare_err)), c1, tr2)
    else
      (.ok (), { c1 with handle := o.prepare_res, bind_num := o.bind_num_res },
        tr2)

/-- `_cubrid_CursorObject_close`. -/
def cursor_close (cciMsg : Int → Option String) (c : Cursor) :
    Except PyErr PyVal × Cursor × List Ev :=
  if c.state = .closed then
    (.error (handle_error cciMsg CUBRID_ER_INVALID_CURSOR Option.none), c, [])
  else
    let (c1, tr) := reset c
    (.ok .none, { c1 with state := .closed }, tr)

/-- `_cubrid_CursorObject_dealloc` (teardown): reset without any state
check and without raising. -/
def cursor_dealloc (c : Cursor) : Cursor × List Ev := reset c

/-- Results of the external calls `cci_execute` / `cci_get_result_info`
make. -/
structure ExecOracle where
  exec_res : Int
  exec_err : TCCIError
  res_col_info : Option (List ColInfo)
  res_sql_type : Int
  res_col_count : Int
  deriving Repr

/-- `_cubrid_CursorObject_execute`. -/
def cursor_execute (cciMsg : Int → Option String) (c : Cursor)
    (o : ExecOracle) (rs : ResultSet) :
    Except PyErr Int × Cursor × ResultSet :=
  if c.state = .closed then
    (.error (handle_error cciMsg CUBRID_ER_INVALID_CURSOR Option.none), c, rs)
  else if o.exec_res < 0 then
    (.error (handle_error cciMsg o.exec_res (some o.exec_err)), c, rs)
  else if o.res_sql_type = SQLX_CMD_SELECT ∧ o.res_col_info = Option.none then
    (.error (handle_error cciMsg CUBRID_ER_CANNOT_GET_COLUMN_INFO Option.none),
      c, rs)
  else
    let c1 := { c with
      col_info := o.res_col_info
      sql_type := o.res_sql_type
      col_count := o.res_col_count
      row_count :=
        if o.res_sql_type = SQLX_CMD_SELECT ∨ o.res_sql_type = SQLX_CMD_INSERT ∨
            o.res_sql_type = SQLX_CMD_UPDATE ∨ o.res_sql_type = SQLX_CMD_DELETE ∨
            o.res_sql_type = SQLX_CMD_CALL then o.exec_res
        else -1 }
    if o.res_sql_type = SQLX_CMD_SELECT then
      let c2 := set_description c1
      let (ret, rs1) := cci_cursor rs 1 .current
      if ret < 0 ∧ ret ≠ CCI_ER_NO_MORE_DATA then
        (.error (handle_error cciMsg ret (some ⟨0, ""⟩)), c2, rs1)
      else (.ok o.exec_res, c2, rs1)
    else (.ok o.exec_res, c1, rs)

/-- `_cubrid_row_to_tuple`.  A column decode failure leaves a pending
exception in the C code (the loop does not test `val`); it is what the
caller observes, so the embedding propagates it as the row's outcome. -/
def row_to_tuple (cciMsg : Int → Option String)
    (dec : String → String → Option String) (c : Cursor) (rs : ResultSet) :
    Except PyErr PyVal :=
  if c.state = .closed then
    .error (handle_error cciMsg CUBRID_ER_INVALID_CURSOR Option.none)
  else
    ((List.range c.col_count.toNat).foldlM (fun acc (i : Nat) =>
      let type := (resultInfoAt c.col_info ((i : Int) + 1)).type
      let cell := (currentRow rs).getD i Cell.dflt
      match ((if CCI_IS_COLLECTION_TYPE type then
          dbset_to_pyvalue cciMsg dec c.state c.charset type cell
        else
          dbval_to_pyvalue cciMsg dec c.state c.charset type cell) :
          Except PyErr PyVal) with
      | .ok v => .ok (acc ++ [v])
      | .error e => .error e) ([] : List PyVal) :
      Except PyErr (List PyVal)).map .tuple

/-- `_cubrid_row_to_dict` (same remark on decode failures). -/
def row_to_dict (cciMsg : Int → Option String)
    (dec : String → String → Option String) (c : Cursor) (rs : ResultSet) :
    Except PyErr PyVal :=
  if c.state = .closed then
    .error (handle_error cciMsg CUBRID_ER_INVALID_CURSOR Option.none)
  else
    ((List.range c.col_count.toNat).foldlM (fun acc (i : Nat) =>
      let ci := resultInfoAt c.col_info ((i : Int) + 1)
      let cell := (currentRow rs).getD i Cell.dflt
      match ((if CCI_IS_COLLECTION_TYPE ci.type then
          dbset_to_pyvalue cciMsg dec c.state c.charset ci.type cell
        else
          dbval_to_pyvalue cciMsg dec c.state c.charset ci.type cell) :
          Except PyErr PyVal) with
      | .ok v => .ok (dictSet acc ci.name v)
      | .error e => .error e) ([] : List (String × PyVal)) :
      Except PyErr (List (String × PyVal))).map .dict

/-- `_cubrid_CursorObject_fetch` (`fetch_row`). -/
def cursor_fetch (cciMsg : Int → Option String)
    (dec : String → String → Option String) (c : Cursor) (rs : ResultSet)
    (how : Int) : Except PyErr (Option PyVal) × Cursor × ResultSet :=
  if c.state = .closed then
    (.error (handle_error cciMsg CUBRID_ER_INVALID_CURSOR Option.none), c, rs)
  else if how < 0 ∨ how > 1 then
    (.error (handle_error cciMsg CUBRID_ER_INVALID_PARAM Option.none), c, rs)
  else
    let (r1, rs1) := cci_cursor rs 0 .current
    if r1 = CCI_ER_NO_MORE_DATA then (.ok Option.none, c, rs1)
    else if r1 < 0 then
      (.error (handle_error cciMsg r1 (some ⟨0, ""⟩)), c, rs1)
    else if cci_fetch rs1 < 0 then
      (.error (handle_error cciMsg (cci_fetch rs1) (some ⟨0, ""⟩)), c, rs1)
    else
      match (if how = 0 then row_to_tuple cciMsg dec c rs1
        else row_to_dict cciMsg dec c rs1) with
      | .error e => (.error e, c, rs1)
      | .ok row =>
          let (r2, rs2) := cci_cursor rs1 1 .current
          if r2 < 0 ∧ r2 ≠ CCI_ER_NO_MORE_DATA then
            (.error (handle_error cciMsg r2 (some ⟨0, ""⟩)), c, rs2)
          else
            (.ok (some row), { c with cursor_pos := c.cursor_pos + 1 }, rs2)

/-! ### LOB objects -/

def CUBRID_CLOB : Char := 'C'

def CUBRID_BLOB : Char := 'B'

def CUBRID_LOB_BUF_SIZE : Int := 4096

/-- The state of `_cubrid_LobObject`: the two alternative transport handles
(modelled as integers), the client-side offset and the kind tag. -/
structure Lob where
  connection : Int
  blob : Option Int
  clob : Option Int
  pos : Int
  type : Char
  deriving DecidableEq, Repr

/-- `_cubrid_LobObject_init`. -/
def Lob.init (connHandle : Int) : Lob :=
  { connection := connHandle
    blob := Option.none
    clob := Option.none
    pos := 0
    type := CUBRID_BLOB }

/-- `_cubrid_CursorObject_fetch_lob`. -/
def cursor_fetch_lob (cciMsg : Int → Option String) (c : Cursor)
    (rs : ResultSet) (col : Int) (lob : Lob) :
    Except PyErr Unit × Cursor × ResultSet × Lob :=
  if c.state = .closed then
    (.error (handle_error cciMsg CUBRID_ER_INVALID_CURSOR Option.none), c, rs,
      lob)
  else
    let (r1, rs1) := cci_cursor rs 0 .current
    if r1 = CCI_ER_NO_MORE_DATA then (.ok (), c, rs1, lob)
    else if r1 < 0 then
      (.error (handle_error cciMsg r1 (some ⟨0, ""⟩)), c, rs1, lob)
    else if cci_fetch rs1 < 0 then
      (.error (handle_error cciMsg (cci_fetch rs1) (some ⟨0, ""⟩)), c, rs1, lob)
    else
      let cell := (currentRow rs1).getD (col - 1).toNat Cell.dflt
      if (resultInfoAt c.col_info 1).type = CCI_U_TYPE_BLOB then
        let lob1 := { lob with type := CUBRID_BLOB }
        let g := cell.asBlob
        if g.res < 0 then
          (.error (handle_error cciMsg g.res Option.none), c, rs1, lob1)
        else
          let lob2 := { lob1 with blob := some g.val }
          let (r2, rs2) := cci_cursor rs1 1 .current
          if r2 < 0 ∧ r2 ≠ CCI_ER_NO_MORE_DATA then
            (.error (handle_error cciMsg r2 (some ⟨0, ""⟩)), c, rs2, lob2)
          else (.ok (), { c with cursor_pos := c.cursor_pos + 1 }, rs2, lob2)
      else
        let lob1 := { lob with type := CUBRID_CLOB }
        let g := cell.asClob
        if g.res < 0 then
          (.error (handle_error cciMsg g.res Option.none), c, rs1, lob1)
        else
          let lob2 := { lob1 with clob := some g.val }
          let (r2, rs2) := cci_cursor rs1 1 .current
          if r2 < 0 ∧ r2 ≠ CCI_ER_NO_MORE_DATA then
            (.error (handle_error cciMsg r2 (some ⟨0, ""⟩)), c, rs2, lob2)
          else (.ok (), { c with cursor_pos := c.cursor_pos + 1 }, rs2, lob2)

/-! ### Parameter binding (`_cubrid_CursorObject_bind_param` and friends) -/

/-- The byte-level representation handed to `cci_bind_param`. -/
inductive WireV where
  | intv (n : Int)
  | floatv (s : String)
  | strv (s : String)
  | datev (d : CCIDate)
  | bitv (bs : List Nat) (size : Int)
  | bytesv (bs : List Nat)
  | lobv (h : Int)
  | setv (h : Option Int)
  deriving DecidableEq, Repr

/-- Arguments of one successful `cci_bind_param` call. -/
structure BindCall where
  index : Int
  a_type : Int
  u_type : Int
  value : WireV
  deriving DecidableEq, Repr

/-- UTF-8 encoding of a host string (`PyUnicode_AsEncodedString (.., "utf-8",
"strict")`); kept as the string itself, UTF-8 being injective on it. -/
def utf8Encode (s : String) : String := s

/-- `_cubrid_CursorObject_bind_param`.  `value` is the dynamic host value,
`bind_type` the optional explicit hint (`0` = absent), `bind_res` the result
of the external `cci_bind_param` call.  On success the result records the
arguments that were handed to the transport (the Python-level return is
`None`); a host value of unsupported type makes the C function return `NULL`
without setting an exception, modelled by the `SystemNull` kind. -/
def cursor_bind_param (cciMsg : Int → Option String) (c : Cursor)
    (index : Int) (value : PyVal) (bind_type : Int) (bind_res : Int) :
    Except PyErr BindCall × Cursor :=
  if c.state = .closed then
    (.error (handle_error cciMsg CUBRID_ER_INVALID_CURSOR Option.none), c)
  else if c.handle = 0 then
    (.error (handle_error cciMsg CUBRID_ER_SQL_UNPREPARE Option.none), c)
  else
    let u_type0 := if bind_type ≠ 0 then bind_type else CCI_U_TYPE_CHAR
    let encoded : Except PyErr (Int × Int × WireV) :=
      match value with
      | .int n =>
          if u_type0 = CCI_U_TYPE_BIGINT then
            if n < -(2 ^ 63) ∨ 2 ^ 63 - 1 < n then
              .error ⟨.OverflowError, 0, "Python int out of range of C int64_t"⟩
            else .ok (CCI_A_TYPE_BIGINT, u_type0, .intv n)
          else
            if n < -(2 ^ 63) ∨ 2 ^ 63 - 1 < n then
              .error ⟨.OverflowError, 0, "Python int out of range of C long"⟩
            else .ok (CCI_A_TYPE_INT, CCI_U_TYPE_INT, .intv n)
      | .float s => .ok (CCI_A_TYPE_DOUBLE, CCI_U_TYPE_DOUBLE, .floatv s)
      | .decimal s =>
          .ok (CCI_A_TYPE_STR, CCI_U_TYPE_NUMERIC, .strv (utf8Encode s))
      | .date y mo d =>
          .ok (CCI_A_TYPE_DATE, CCI_U_TYPE_DATE, .datev ⟨y, mo, d, 0, 0, 0, 0⟩)
      | .time h mi s us =>
          .ok (CCI_A_TYPE_DATE, CCI_U_TYPE_TIME,
            .datev ⟨0, 0, 0, h, mi, s, us / 1000⟩)
      | .datetime y mo d h mi s us =>
          .ok (CCI_A_TYPE_DATE, CCI_U_TYPE_DATETIME,
            .datev ⟨y, mo, d, h, mi, s, us / 1000⟩)
      | .str s => .ok (CCI_A_TYPE_STR, u_type0, .strv (utf8Encode s))
      | .bytes bs =>
          if u_type0 = CCI_U_TYPE_BIT ∨ u_type0 = CCI_U_TYPE_VARBIT then
            .ok (CCI_A_TYPE_BIT, u_type0, .bitv bs (bs.length : Int))
          else .ok (CCI_A_TYPE_STR, u_type0, .bytesv bs)
      | _ => .error ⟨.SystemNull, 0, ""⟩
    match encoded with
    | .error e => (.error e, c)
    | .ok (a_type, u_type, w) =>
        if bind_res < 0 then
          (.error (handle_error cciMsg bind_res Option.none), c)
        else (.ok ⟨index, a_type, u_type, w⟩, c)

/-- `_cubrid_CursorObject_bind_lob` (`bind_lob`). -/
def cursor_bind_lob (cciMsg : Int → Option String) (c : Cursor) (index : Int)
    (lob : Lob) (bind_res : Int) : Except PyErr BindCall × Cursor :=
  if c.state = .closed then
    (.error (handle_error cciMsg CUBRID_ER_INVALID_CURSOR Option.none), c)
  else if lob.type = CUBRID_BLOB then
    if bind_res < 0 then (.error (handle_error cciMsg bind_res Option.none), c)
    else
      (.ok ⟨index, CCI_A_TYPE_BLOB, CCI_U_TYPE_BLOB,
        .lobv (lob.blob.getD 0)⟩, c)
  else
    if bind_res < 0 then (.error (handle_error cciMsg bind_res Option.none), c)
    else
      (.ok ⟨index, CCI_A_TYPE_CLOB, CCI_U_TYPE_CLOB,
        .lobv (lob.clob.getD 0)⟩, c)

/-- `_cubrid_CursorObject_bind_Set` (`bind_set`); `set_data` is the
collection handle stored in the set object. -/
def cursor_bind_set (cciMsg : Int → Option String) (c : Cursor) (index : Int)
    (set_data : Option Int) (bind_res : Int) : Except PyErr BindCall × Cursor :=
  if c.state = .closed then
    (.error (handle_error cciMsg CUBRID_ER_INVALID_CURSOR Option.none), c)
  else if bind_res < 0 then
    (.error (handle_error cciMsg bind_res Option.none), c)
  else (.ok ⟨index, CCI_A_TYPE_SET, CCI_U_TYPE_SET, .setv set_data⟩, c)

/-! ### Navigation and metadata operations -/

/-- `_cubrid_CursorObject_data_seek`. -/
def cursor_data_seek (cciMsg : Int → Option String) (c : Cursor)
    (rs : ResultSet) (row : Int) : Except PyErr Unit × Cursor × ResultSet :=
  if c.state = .closed then
    (.error (handle_error cciMsg CUBRID_ER_INVALID_CURSOR Option.none), c, rs)
  else if row < 1 ∨ c.row_count < row then
    (.error (handle_error cciMsg CUBRID_ER_INVALID_PARAM Option.none), c, rs)
  else
    let (res, rs1) := cci_cursor rs row .first
    if res < 0 ∨ res = CCI_ER_NO_MORE_DATA then
      (.error (handle_error cciMsg res (some ⟨0, ""⟩)), c, rs1)
    else (.ok (), { c with cursor_pos := row }, rs1)

/-- `_cubrid_CursorObject_row_seek`. -/
def cursor_row_seek (cciMsg : Int → Option String) (c : Cursor)
    (rs : ResultSet) (offset : Int) : Except PyErr Unit × Cursor × ResultSet :=
  if c.state = .closed then
    (.error (handle_error cciMsg CUBRID_ER_INVALID_CURSOR Option.none), c, rs)
  else
    let (res, rs1) := cci_cursor rs offset .current
    if res < 0 then (.error (handle_error cciMsg res (some ⟨0, ""⟩)), c, rs1)
    else (.ok (), { c with cursor_pos := c.cursor_pos + offset }, rs1)

/-- `_cubrid_CursorObject_row_tell`. -/
def cursor_row_tell (cciMsg : Int → Option String) (c : Cursor) :
    Except PyErr PyVal × Cursor :=
  if c.state = .closed then
    (.error (handle_error cciMsg CUBRID_ER_INVALID_CURSOR Option.none), c)
  else if c.row_count < c.cursor_pos then
    (.error (handle_error cciMsg CUBRID_ER_INVALID_CURSOR_POS Option.none), c)
  else (.ok (.int c.cursor_pos), c)

/-- `_cubrid_CursorObject_num_fields`. -/
def cursor_num_fields (cciMsg : Int → Option String) (c : Cursor) :
    Except PyErr PyVal × Cursor :=
  if c.state = .closed then
    (.error (handle_error cciMsg CUBRID_ER_INVALID_CURSOR Option.none), c)
  else if c.sql_type = SQLX_CMD_SELECT then (.ok (.int c.col_count), c)
  else (.ok .none, c)

/-- `_cubrid_CursorObject_num_rows`. -/
def cursor_num_rows (cciMsg : Int → Option String) (c : Cursor) :
    Except PyErr PyVal × Cursor :=
  if c.state = .closed then
    (.error (handle_error cciMsg CUBRID_ER_INVALID_CURSOR Option.none), c)
  else if c.sql_type = SQLX_CMD_SELECT then (.ok (.int c.row_count), c)
  else (.ok .none, c)

/-- `_cubrid_CursorObject_affected_rows`. -/
def cursor_affected_rows (cciMsg : Int → Option String) (c : Cursor) :
    Except PyErr PyVal × Cursor :=
  if c.state = .closed then
    (.error (handle_error cciMsg CUBRID_ER_INVALID_CURSOR Option.none), c)
  else if c.sql_type = SQLX_CMD_INSERT ∨ c.sql_type = SQLX_CMD_UPDATE ∨
      c.sql_type = SQLX_CMD_DELETE then
    (.ok (.int c.row_count), c)
  else (.ok (.int (-1)), c)

/-- The 15-item sequence `result_info` builds for one column. -/
def resultInfoTuple (ci : ColInfo) : PyVal :=
  .tuple [.int ci.type, .int ci.is_non_null, .int ci.scale, .int ci.precision,
    .str ci.name, .str ci.attr_name, .str ci.class_name,
    .str ci.default_value, .int ci.is_auto_increment, .int ci.is_unique_key,
    .int ci.is_primary_key, .int ci.is_foreign_key, .int ci.is_reverse_index,
    .int ci.is_reverse_unique, .int ci.is_shared]

/-- `_cubrid_CursorObject_result_info`. -/
def cursor_result_info (cciMsg : Int → Option String) (c : Cursor) (n : Int) :
    Except PyErr PyVal × Cursor :=
  if c.state = .closed then
    (.error (handle_error cciMsg CUBRID_ER_INVALID_CURSOR Option.none), c)
  else if c.col_count = 0 then (.ok .none, c)
  else if n < 0 ∨ c.col_count < n then
    (.error (handle_error cciMsg CUBRID_ER_INVALID_PARAM Option.none), c)
  else
    let lo := if n ≠ 0 then n else 1
    let len := if n ≠ 0 then n else c.col_count
    (.ok (.tuple ((List.range (len - lo + 1).toNat).map (fun (j : Nat) =>
      resultInfoTuple (resultInfoAt c.col_info (lo + (j : Int)))))), c)

/-- Results of the external calls `cci_next_result` / `cci_get_result_info`
make. -/
structure NextOracle where
  next_res : Int
  next_err : TCCIError
  res_col_info : Option (List ColInfo)
  res_sql_type : Int
  res_col_count : Int
  deriving Repr

/-- `_cubrid_CursorObject_next_result`. -/
def cursor_next_result (cciMsg : Int → Option String) (c : Cursor)
    (o : NextOracle) (rs : ResultSet) :
    Except PyErr PyVal × Cursor × ResultSet :=
  if c.state = .closed then
    (.error (handle_error cciMsg CUBRID_ER_INVALID_CURSOR Option.none), c, rs)
  else
    let c1 := { c with
      description := .cleared
      bind_num := -1
      col_count := -1
      sql_type := 0
      row_count := -1
      cursor_pos := 0 }
    if o.next_res = CAS_ER_NO_MORE_RESULT_SET then (.ok .none, c1, rs)
    else if o.next_res < 0 then
      (.error (handle_error cciMsg o.next_res (some o.next_err)), c1, rs)
    else if o.res_sql_type = SQLX_CMD_SELECT ∧ o.res_col_info = Option.none then
      (.error
        (handle_error cciMsg CUBRID_ER_CANNOT_GET_COLUMN_INFO Option.none),
        c1, rs)
    else
      let c2 := { c1 with
        col_info := o.res_col_info
        sql_type := o.res_sql_type
        col_count := o.res_col_count
        row_count :=
          if o.res_sql_type = SQLX_CMD_SELECT ∨
              o.res_sql_type = SQLX_CMD_INSERT ∨
              o.res_sql_type = SQLX_CMD_UPDATE ∨
              o.res_sql_type = SQLX_CMD_DELETE ∨
              o.res_sql_type = SQLX_CMD_CALL then o.next_res
          else -1 }
      if o.res_sql_type = SQLX_CMD_SELECT then
        let c3 := set_description c2
        let (res, rs1) := cci_cursor rs 1 .current
        if res < 0 ∧ res ≠ CCI_ER_NO_MORE_DATA then
          (.error (handle_error cciMsg res (some ⟨0, ""⟩)), c3, rs1)
        else (.ok .none, c3, rs1)
      else (.ok .none, c2, rs)

/-- `_cubrid_CursorObject_set_charset`. -/
def cursor_set_charset (cciMsg : Int → Option String) (c : Cursor)
    (charset : String) : Except PyErr PyVal × Cursor :=
  if c.state = .closed then
    (.error (handle_error cciMsg CUBRID_ER_INVALID_CURSOR Option.none), c)
  else if charset ≠ "" then (.ok .none, { c with charset := charset })
  else (.ok .none, c)

/-! ### LOB streaming (`_cubrid_LobObject_export` / `_cubrid_LobObject_import`)

The local file and the remote LOB are external resources; the per-chunk
transport and file outcomes are supplied as oracles indexed by the byte
position of the chunk. -/

/-- Client-side view of the export target file. -/
structure FileSt where
  present : Bool
  openFd : Bool
  contents : List Nat
  deriving DecidableEq, Repr

/-- Outcome of a whole-transfer loop: success, an abort carrying the raised
exception, or exhaustion of the recursion fuel (the C loop would still be
running). -/
inductive XferRes where
  | done
  | err (e : PyErr)
  | fuelOut
  deriving DecidableEq, Repr

/-- The `while (1)` loop of `_cubrid_LobObject_export`: read a transport
chunk (`rdr pos`: failure code plus diagnostic, or the bytes read), write it
to the file (`wr pos`: whether the `write` call succeeds); on any failure
close the descriptor and `unlink` the file.  On success the descriptor is
left as the C code leaves it (open). -/
def lob_export_loop (cciMsg : Int → Option String)
    (rdr : Int → Except (Int × TCCIError) (List Nat)) (wr : Int → Bool)
    (lob_size : Int) : Nat → Int → FileSt → XferRes × FileSt
  | 0, _, fs => (.fuelOut, fs)
  | fuel + 1, pos, fs =>
      match rdr pos with
      | .error (e, err) =>
          (.err (handle_error cciMsg e (some err)),
            { fs with openFd := false, present := false })
      | .ok bytes =>
          if wr pos then
            let fs1 := { fs with contents := fs.contents ++ bytes }
            let pos1 := pos + (bytes.length : Int)
            if pos1 = lob_size then (.done, fs1)
            else lob_export_loop cciMsg rdr wr lob_size fuel pos1 fs1
          else
            (.err (handle_error cciMsg CUBRID_ER_WRITE_FILE Option.none),
              { fs with openFd := false, present := false })

/-- `_cubrid_LobObject_export`: entry checks, file creation, then the chunk
loop.  `openOk` is whether `open (O_CREAT|O_WRONLY|O_TRUNC)` succeeds. -/
def lob_export (cciMsg : Int → Option String) (lob : Lob) (openOk : Bool)
    (rdr : Int → Except (Int × TCCIError) (List Nat)) (wr : Int → Bool)
    (lob_size : Int) (fuel : Nat) : XferRes × FileSt :=
  if lob.blob = Option.none ∧ lob.clob = Option.none then
    (.err (handle_error cciMsg CUBRID_ER_LOB_NOT_EXIST Option.none),
      ⟨false, false, []⟩)
  else if ¬openOk then
    (.err (handle_error cciMsg CUBRID_ER_OPEN_FILE Option.none),
      ⟨false, false, []⟩)
  else lob_export_loop cciMsg rdr wr lob_size fuel 0 ⟨true, true, []⟩

/-- Client-side state tracked during a LOB import: whether the source file
descriptor is still open and whether the partially written LOB has been
released through `_cubrid_LobObject_close`. -/
structure ImportSt where
  fdOpen : Bool
  lobClosed : Bool
  deriving DecidableEq, Repr

/-- The `while (1)` loop of `_cubrid_LobObject_import`: read a file chunk
(`frd pos`: `none` = `read` failure, otherwise the bytes, empty = EOF),
write it to the LOB (`lw pos`); on any failure close the descriptor and the
partially written LOB before raising. -/
def lob_import_loop (cciMsg : Int → Option String)
    (frd : Int → Option (List Nat))
    (lw : Int → Except (Int × TCCIError) Unit) :
    Nat → Int → ImportSt → XferRes × ImportSt
  | 0, _, st => (.fuelOut, st)
  | fuel + 1, pos, st =>
      match frd pos with
      | Option.none =>
          (.err (handle_error cciMsg CUBRID_ER_READ_FILE Option.none),
            { fdOpen := false, lobClosed := true })
      | some bytes =>
          if bytes.length = 0 then (.done, st)
          else
            match lw pos with
            | .error (e, err) =>
                (.err (handle_error cciMsg e (some err)),
                  { fdOpen := false, lobClosed := true })
            | .ok _ =>
                lob_import_loop cciMsg frd lw fuel (pos + (bytes.length : Int))
                  st

/-! ### Collection build (`_cubrid_str2bit`, `_cubrid_SetObject_import`) -/

/-- One iteration of the `_cubrid_str2bit` loop (the C `shift` constant is
8): examine character `len - i - 1` and set bit `i % 8` of byte
`len / 8 - i / 8 - t` for a '1', leave the buffer alone for a '0', fail for
anything else. -/
def str2bit_step (cs : List Char) (len t : Nat) (buf : List Nat) (i : Nat) :
    Option (List Nat) :=
  let c := cs.getD (len - i - 1) ' '
  if c = '1' then
    let idx := len / 8 - i / 8 - t
    some (buf.set idx (buf.getD idx 0 ||| (1 <<< (i % 8))))
  else if c = '0' then some buf
  else Option.none

/-- `_cubrid_str2bit`: pack a '0'/'1' string into a zero-initialised byte
buffer of `len / 8 + 2` bytes, filling from the last character up; any other
character fails the conversion. -/
def str2bit (s : String) : Option (List Nat) :=
  let cs := s.data
  let len := cs.length
  let t := if len % 8 = 0 then 1 else 0
  let buf0 := List.replicate (len / 8 + 1 + 1) 0
  (List.range len).foldlM (str2bit_step cs len t) buf0

/-- One element of the collection value handed to `cci_set_make`: null
(indicator set), a text element, or a packed bit-string with its byte
count. -/
inductive SetElem where
  | nullElem
  | strElem (s : String)
  | bitElem (buf : List Nat) (size : Int)
  deriving DecidableEq, Repr

/-- What `cci_set_make` is invoked with: the element wire type passed and
the element list (null-ness per the indicator array). -/
structure SetMade where
  utype : Int
  elems : List SetElem
  deriving DecidableEq, Repr

/-- First loop of `_cubrid_SetObject_import`: every element must be a
string (`none` models `PyUnicode_AsUTF8` returning `NULL`) and non-empty;
an element equal to the literal `"NULL"` gets its indicator set. -/
def set_import_validate : List (Option String) →
    Except PyErr (List (String × Bool))
  | [] => .ok []
  | Option.none :: _ =>
      .error (handle_error (fun _ => Option.none) CUBRID_ER_INVALID_PARAM
        Option.none)
  | some s :: rest =>
      if s.length = 0 then
        .error (handle_error (fun _ => Option.none) CUBRID_ER_INVALID_PARAM
          Option.none)
      else (set_import_validate rest).map (fun ps => (s, s = "NULL") :: ps)

/-- BIT/VARBIT conversion loop of `_cubrid_SetObject_import`: skip null
elements, pack the others with `_cubrid_str2bit` (size `strlen / 8 + 1`),
abort the whole build on a malformed element. -/
def set_import_bits : List (String × Bool) → Except PyErr (List SetElem)
  | [] => .ok []
  | (s, isNull) :: rest =>
      if isNull then (set_import_bits rest).map (fun es => .nullElem :: es)
      else
        match str2bit s with
        | Option.none =>
            .error (handle_error (fun _ => Option.none) CUBRID_ER_INVALID_PARAM
              Option.none)
        | some buf =>
            (set_import_bits rest).map (fun es =>
              .bitElem buf ((s.length : Int) / 8 + 1) :: es)

/-- `_cubrid_SetObject_import` (`imports`): validate the elements, then for
BIT/VARBIT pack each element and call `cci_set_make` with the declared type;
for every other declared type call `cci_set_make` with `CCI_U_TYPE_STRING`
and the element texts.  `cci_set_make` itself (external) marks an element
null exactly when its indicator is set. -/
def set_import (elems : List (Option String)) (type : Int) :
    Except PyErr SetMade :=
  match set_import_validate elems with
  | .error e => .error e
  | .ok pairs =>
      if type = CCI_U_TYPE_BIT ∨ type = CCI_U_TYPE_VARBIT then
        match set_import_bits pairs with
        | .error e => .error e
        | .ok es => .ok ⟨type, es⟩
      else
        .ok ⟨CCI_U_TYPE_STRING,
          pairs.map (fun p => if p.2 then .nullElem else .strElem p.1)⟩

/-! ### Theorems -/

/-- Claim C6: on a DBMS failure (`CCI_ER_DBMS`) with a diagnostic payload,
`handle_error` classifies the payload's embedded code by the fixed table
(-493 programming; -669, -673, -677, -1069, -1071 operational; -205, -494,
-631, -670, -886, -919..-924, -1063, -1067 integrity; default database); on
a DBMS failure without payload it raises NotSupportedError with message
"Unknown DBMS Error"; and every call signals the classified exception
rather than returning a value. -/
theorem C6_handle_error_classification (cciMsg : Int → Option String)
    (m : String) :
    (∀ c : Int, (handle_error cciMsg CCI_ER_DBMS (some ⟨c, m⟩)).kind =
      (if c = -493 then .ProgrammingError
       else if c = -669 ∨ c = -673 ∨ c = -677 ∨ c = -1069 ∨ c = -1071 then
         .OperationalError
       else if c = -205 ∨ c = -494 ∨ c = -631 ∨ c = -670 ∨ c = -886 ∨
           c = -919 ∨ c = -920 ∨ c = -921 ∨ c = -922 ∨ c = -923 ∨ c = -924 ∨
           c = -1063 ∨ c = -1067 then .IntegrityError
       else .DatabaseError)) ∧
    handle_error cciMsg CCI_ER_DBMS Option.none =
      ⟨.NotSupportedError, 0, "ERROR: DBMS, 0, Unknown DBMS Error"⟩ ∧
    (∀ e err, (handle_error_raises cciMsg e err).isOk = false) := by
  refine ⟨fun c => ?_, rfl, fun e err => rfl⟩
  simp [handle_error, dbmsExcKind]

/-- Concrete decode input exhibiting the broken fallback null path: an
unrecognized wire type whose integer fetch fails and whose date-struct
fetch succeeds with the null indicator set. -/
def c1Cell : Cell :=
  { Cell.dflt with
      asInt := ⟨-1, 0, 0⟩
      asDate := ⟨0, -1, ⟨0, 0, 0, 0, 0, 0, 0⟩⟩ }

/-- Claim C1 (code bug): the claim and the spec require every decode path to
map a set null indicator to host-null without interpreting the payload, and
every recognized-type branch of `_cubrid_CursorObject_dbval_to_pyvalue`
does; but on the unrecognized-type fallback's date-struct probe the C code
assigns `Py_None` without returning it (a missing `return`, also leaking the
reference) and falls through to interpret the struct.  Here the transport
reports null (`ind = -1`) for wire type 999, yet the decoder returns a
`datetime.time` value built from the payload instead of `None`. -/
theorem C1_fallback_null_interpreted :
    c1Cell.asDate.ind < 0 ∧
    dbval_to_pyvalue (fun _ => Option.none) (fun _ r => some r) .opened "utf8"
      999 c1Cell = .ok (.time 0 0 0 0) ∧
    (PyVal.time 0 0 0 0 ≠ PyVal.none) :=
  ⟨by decide, rfl, fun h => nomatch h⟩

/-- The exception raised on use of a closed cursor:
`handle_error (CUBRID_ER_INVALID_CURSOR, NULL)`. -/
def invalidCursorRaise (cciMsg : Int → Option String) : PyErr :=
  handle_error cciMsg CUBRID_ER_INVALID_CURSOR Option.none

/-- All cursor operations other than `close`/`prepare`, invoked on cursor
`c`, raise the invalid-cursor condition and leave every piece of state
untouched; a second `close` raises it too; the raised exception is the
InterfaceError with the closed-cursor message; and teardown (`dealloc`) of
a cursor whose handle is already released performs no transport call and by
construction raises nothing. -/
def allOpsInvalidOnClosed (cciMsg : Int → Option String)
    (dec : String → String → Option String) (c : Cursor) (o : ExecOracle)
    (no : NextOracle) (rs : ResultSet)
    (how n index offset row col bind_type bind_res : Int) (value : PyVal)
    (lob : Lob) (set_data : Option Int) (s : String) : Prop :=
  cursor_execute cciMsg c o rs = (.error (invalidCursorRaise cciMsg), c, rs) ∧
  cursor_fetch cciMsg dec c rs how =
    (.error (invalidCursorRaise cciMsg), c, rs) ∧
  cursor_bind_param cciMsg c index value bind_type bind_res =
    (.error (invalidCursorRaise cciMsg), c) ∧
  cursor_bind_lob cciMsg c index lob bind_res =
    (.error (invalidCursorRaise cciMsg), c) ∧
  cursor_bind_set cciMsg c index set_data bind_res =
    (.error (invalidCursorRaise cciMsg), c) ∧
  cursor_fetch_lob cciMsg c rs col lob =
    (.error (invalidCursorRaise cciMsg), c, rs, lob) ∧
  cursor_data_seek cciMsg c rs row =
    (.error (invalidCursorRaise cciMsg), c, rs) ∧
  cursor_row_seek cciMsg c rs offset =
    (.error (invalidCursorRaise cciMsg), c, rs) ∧
  cursor_row_tell cciMsg c = (.error (invalidCursorRaise cciMsg), c) ∧
  cursor_num_fields cciMsg c = (.error (invalidCursorRaise cciMsg), c) ∧
  cursor_num_rows cciMsg c = (.error (invalidCursorRaise cciMsg), c) ∧
  cursor_result_info cciMsg c n = (.error (invalidCursorRaise cciMsg), c) ∧
  cursor_next_result cciMsg c no rs =
    (.error (invalidCursorRaise cciMsg), c, rs) ∧
  cursor_set_charset cciMsg c s = (.error (invalidCursorRaise cciMsg), c) ∧
  cursor_close cciMsg c = (.error (invalidCursorRaise cciMsg), c, []) ∧
  (invalidCursorRaise cciMsg).kind = .InterfaceError ∧
  (invalidCursorRaise cciMsg).msg = "ERROR: CLIENT, -21018, " ++
    "The cursor has been closed. No operation is allowed any more." ∧
  (c.handle = 0 → cursor_dealloc c = (c, []))

/-- Claim C2: every cursor operation other than close/prepare (execute,
fetch_row, bind_param, bind_lob, bind_set, fetch_lob, data_seek, row_seek,
row_tell, num_fields, num_rows, result_info, next_result, set_charset)
invoked on a CLOSED cursor raises the invalid-cursor InterfaceError; an
explicit second `close()` raises it as well, while teardown is silent. -/
theorem C2_closed_cursor_ops (cciMsg : Int → Option String)
    (dec : String → String → Option String) (c : Cursor)
    (h : c.state = .closed) (o : ExecOracle)
    (no : NextOracle) (rs : ResultSet)
    (how n index offset row col bind_type bind_res : Int) (value : PyVal)
    (lob : Lob) (set_data : Option Int) (s : String) :
    allOpsInvalidOnClosed cciMsg dec c o no rs how n index offset row col
      bind_type bind_res value lob set_data s := by
  refine ⟨?_, ?_, ?_, ?_, ?_, ?_, ?_, ?_, ?_, ?_, ?_, ?_, ?_, ?_, ?_, ?_,
    ?_, ?_⟩
  · simp [cursor_execute, h, invalidCursorRaise]
  · simp [cursor_fetch, h, invalidCursorRaise]
  · simp [cursor_bind_param, h, invalidCursorRaise]
  · simp [cursor_bind_lob, h, invalidCursorRaise]
  · simp [cursor_bind_set, h, invalidCursorRaise]
  · simp [cursor_fetch_lob, h, invalidCursorRaise]
  · simp [cursor_data_seek, h, invalidCursorRaise]
  · simp [cursor_row_seek, h, invalidCursorRaise]
  · simp [cursor_row_tell, h, invalidCursorRaise]
  · simp [cursor_num_fields, h, invalidCursorRaise]
  · simp [cursor_num_rows, h, invalidCursorRaise]
  · simp [cursor_result_info, h, invalidCursorRaise]
  · simp [cursor_next_result, h, invalidCursorRaise]
  · simp [cursor_set_charset, h, invalidCursorRaise]
  · simp [cursor_close, h, invalidCursorRaise]
  · rfl
  · rfl
  · intro hh
    simp [cursor_dealloc, reset, hh]

/-- A cursor in the state `close()` leaves behind. -/
def closedCursor : Cursor :=
  { Cursor.init 1 with state := .closed }

theorem C2_closed_cursor_ops_witness :
    closedCursor.state = .closed ∧
    allOpsInvalidOnClosed (fun _ => Option.none) (fun _ r => some r)
      closedCursor ⟨0, ⟨0, ""⟩, Option.none, 0, 0⟩
      ⟨0, ⟨0, ""⟩, Option.none, 0, 0⟩ ⟨[], 0, 0⟩ 0 0 1 0 1 1 0 0 (.int 3)
      (Lob.init 1) Option.none "utf8" :=
  ⟨rfl,
    C2_closed_cursor_ops (fun _ => Option.none) (fun _ r => some r)
      closedCursor rfl ⟨0, ⟨0, ""⟩, Option.none, 0, 0⟩
      ⟨0, ⟨0, ""⟩, Option.none, 0, 0⟩ ⟨[], 0, 0⟩ 0 0 1 0 1 1 0 0 (.int 3)
      (Lob.init 1) Option.none "utf8"⟩

/-- A cursor holding a freshly prepared statement handle. -/
def preparedCursor : Cursor :=
  { Cursor.init 1 with handle := 1 }

/-- Claim C3 is false on the code: binding the integer `2^40` — which
overflows 32 bits — with the explicit (non-BIGINT) hint `NUMERIC` still
hands wire type `CCI_U_TYPE_INT` to the transport: the 32-bit overflow does
not change the chosen wire type, and the explicit hint does not override it
either. -/
theorem C3_bind_param_counterexample :
    cursor_bind_param (fun _ => Option.none) preparedCursor 1 (.int (2 ^ 40))
      CCI_U_TYPE_NUMERIC 0 =
      (.ok ⟨1, CCI_A_TYPE_INT, CCI_U_TYPE_INT, .intv (2 ^ 40)⟩,
        preparedCursor) ∧
    (2 ^ 31 : Int) ≤ 2 ^ 40 ∧ CCI_U_TYPE_NUMERIC ≠ CCI_U_TYPE_INT ∧
    CCI_U_TYPE_NUMERIC ≠ (0 : Int) :=
  ⟨rfl, by decide, by decide, by decide⟩

/-- Claim C3 (amended): an integer host value is encoded with wire type INT
and a C `long` payload whenever the explicit hint is not BIGINT (any other
hint is ignored for integers, and a 32-bit overflow does not promote the
type), raising OverflowError when the value overflows the 64-bit C `long`;
with an explicit BIGINT hint it is encoded as BIGINT, raising OverflowError
when the value overflows `int64_t`.  The hint, where it is honored, selects
only the wire type, never the host-to-bytes conversion (the payload is the
same integer either way). -/
theorem C3_bind_param_int_encoding (cciMsg : Int → Option String)
    (c : Cursor) (n index bind_type bind_res : Int)
    (hs : c.state ≠ .closed) (hh : c.handle ≠ 0) (hb : 0 ≤ bind_res) :
    (bind_type ≠ CCI_U_TYPE_BIGINT →
      ¬(n < -(2 ^ 63) ∨ 2 ^ 63 - 1 < n) →
      cursor_bind_param cciMsg c index (.int n) bind_type bind_res =
        (.ok ⟨index, CCI_A_TYPE_INT, CCI_U_TYPE_INT, .intv n⟩, c)) ∧
    (bind_type ≠ CCI_U_TYPE_BIGINT →
      (n < -(2 ^ 63) ∨ 2 ^ 63 - 1 < n) →
      cursor_bind_param cciMsg c index (.int n) bind_type bind_res =
        (.error ⟨.OverflowError, 0, "Python int out of range of C long"⟩,
          c)) ∧
    (bind_type = CCI_U_TYPE_BIGINT →
      ¬(n < -(2 ^ 63) ∨ 2 ^ 63 - 1 < n) →
      cursor_bind_param cciMsg c index (.int n) bind_type bind_res =
        (.ok ⟨index, CCI_A_TYPE_BIGINT, CCI_U_TYPE_BIGINT, .intv n⟩, c)) ∧
    (bind_type = CCI_U_TYPE_BIGINT →
      (n < -(2 ^ 63) ∨ 2 ^ 63 - 1 < n) →
      cursor_bind_param cciMsg c index (.int n) bind_type bind_res =
        (.error ⟨.OverflowError, 0, "Python int out of range of C int64_t"⟩,
          c)) := by
  have hu : ∀ bt : Int, bt ≠ CCI_U_TYPE_BIGINT →
      (if bt ≠ 0 then bt else CCI_U_TYPE_CHAR) ≠ CCI_U_TYPE_BIGINT := by
    intro bt hbt
    by_cases h0 : bt = 0
    · simp [h0]
      decide
    · simp [h0, hbt]
  refine ⟨fun hbt hr => ?_, fun hbt hr => ?_, fun hbt hr => ?_,
    fun hbt hr => ?_⟩
  · simp only [cursor_bind_param, if_neg hs, if_neg hh]
    rw [if_neg (hu bind_type hbt), if_neg hr]
    simp [not_lt.mpr hb]
  · simp only [cursor_bind_param, if_neg hs, if_neg hh]
    rw [if_neg (hu bind_type hbt), if_pos hr]
  · have h0 : bind_type ≠ 0 := by
      rw [hbt]
      decide
    have hbig : (if bind_type ≠ 0 then bind_type else CCI_U_TYPE_CHAR) =
        CCI_U_TYPE_BIGINT := by rw [if_pos h0, hbt]
    simp only [cursor_bind_param, if_neg hs, if_neg hh]
    rw [hbig, if_pos rfl, if_neg hr]
    simp [not_lt.mpr hb]
  · have h0 : bind_type ≠ 0 := by
      rw [hbt]
      decide
    have hbig : (if bind_type ≠ 0 then bind_type else CCI_U_TYPE_CHAR) =
        CCI_U_TYPE_BIGINT := by rw [if_pos h0, hbt]
    simp only [cursor_bind_param, if_neg hs, if_neg hh]
    rw [hbig, if_pos rfl, if_pos hr]

theorem C3_bind_param_int_encoding_witness :
    preparedCursor.state ≠ CursorState.closed ∧ preparedCursor.handle ≠ 0 ∧
    (0 : Int) ≤ 0 ∧
    ((0 : Int) ≠ CCI_U_TYPE_BIGINT →
      ¬((5 : Int) < -(2 ^ 63) ∨ 2 ^ 63 - 1 < (5 : Int)) →
      cursor_bind_param (fun _ => Option.none) preparedCursor 1 (.int 5) 0 0 =
        (.ok ⟨1, CCI_A_TYPE_INT, CCI_U_TYPE_INT, .intv 5⟩, preparedCursor)) :=
  ⟨by decide, by decide, by decide,
    (C3_bind_param_int_encoding (fun _ => Option.none) preparedCursor 5 1 0 0
      (by decide) (by decide) (by decide)).1⟩

/-- Claim C4: `prepare(sql)` on a non-closed cursor holding a prior
statement handle first releases that handle and performs the implicit reset
— the intermediate cursor has no handle, cleared column descriptors, and
the row count, bind count and cursor position back at their initial values —
and only then calls the transport's prepare; on success the new handle
replaces the old one (so at most one statement handle is ever live), and
even on failure the cursor keeps the reset state. -/
theorem C4_prepare_implicit_reset (cciMsg : Int → Option String) (c : Cursor)
    (o : PrepOracle) (sql : String) (hs : c.state ≠ .closed)
    (hh : c.handle ≠ 0) :
    (cursor_prepare cciMsg c o sql).2.2 =
      [Ev.closeReqHandle c.handle, Ev.cciPrepare c.connection sql] ∧
    (reset c).1 = { c with
      handle := 0
      description := .cleared
      bind_num := -1
      col_count := -1
      sql_type := 0
      row_count := -1
      cursor_pos := 0 } ∧
    (0 ≤ o.prepare_res →
      (cursor_prepare cciMsg c o sql).1 = .ok () ∧
      (cursor_prepare cciMsg c o sql).2.1 =
        { (reset c).1 with
            handle := o.prepare_res
            bind_num := o.bind_num_res }) ∧
    (o.prepare_res < 0 →
      (cursor_prepare cciMsg c o sql).1 =
        .error (handle_error cciMsg o.prepare_res (some o.prepare_err)) ∧
      (cursor_prepare cciMsg c o sql).2.1 = (reset c).1) := by
  refine ⟨?_, ?_, fun hp => ?_, fun hp => ?_⟩
  · by_cases hp : o.prepare_res < 0 <;>
      simp [cursor_prepare, reset, if_neg hs, hh, hp]
  · simp [reset, hh]
  · constructor <;>
      simp [cursor_prepare, reset, if_neg hs, hh, if_neg (not_lt.mpr hp)]
  · constructor <;> simp [cursor_prepare, reset, if_neg hs, hh, hp]

/-- A cursor that already executed a SELECT: prior handle, descriptors, row
count and position all populated. -/
def executedCursor : Cursor :=
  { Cursor.init 1 with
      handle := 3
      description := .items [⟨"a", CCI_U_TYPE_INT, 0, 0, 10, 0, 1⟩]
      bind_num := 0
      col_count := 1
      sql_type := SQLX_CMD_SELECT
      row_count := 4
      cursor_pos := 2
      col_info := some [{ ColInfo.dflt with
        type := CCI_U_TYPE_INT
        name := "a"
        precision := 10 }] }

theorem C4_prepare_implicit_reset_witness :
    executedCursor.state ≠ CursorState.closed ∧ executedCursor.handle ≠ 0 ∧
    (cursor_prepare (fun _ => Option.none) executedCursor ⟨5, ⟨0, ""⟩, 1⟩
        "select 1").2.2 =
      [Ev.closeReqHandle 3, Ev.cciPrepare 1 "select 1"] ∧
    (reset executedCursor).1 = { executedCursor with
      handle := 0
      description := .cleared
      bind_num := -1
      col_count := -1
      sql_type := 0
      row_count := -1
      cursor_pos := 0 } :=
  ⟨by decide, by decide,
    (C4_prepare_implicit_reset (fun _ => Option.none) executedCursor
      ⟨5, ⟨0, ""⟩, 1⟩ "select 1" (by decide) (by decide)).1,
    (C4_prepare_implicit_reset (fun _ => Option.none) executedCursor
      ⟨5, ⟨0, ""⟩, 1⟩ "select 1" (by decide) (by decide)).2.1⟩

/-- Claim C5: with the server cursor past the available rows the transport
reports no-more-data and `fetch_row` returns the `None` sentinel without an
error, leaving the cursor and the server state exactly as they were — so
repeated calls keep returning the sentinel; and every fetch that returns a
row advances the cursor position (client counter and server cursor) by
exactly one. -/
theorem C5_fetch_row_semantics (cciMsg : Int → Option String)
    (dec : String → String → Option String) (c : Cursor) (rs : ResultSet)
    (how : Int) (hs : c.state ≠ .closed) (h0 : 0 ≤ how) (h1 : how ≤ 1) :
    (¬(1 ≤ rs.pos ∧ rs.pos ≤ (rs.rows.length : Int)) →
      cursor_fetch cciMsg dec c rs how = (.ok Option.none, c, rs)) ∧
    (∀ row c' rs',
      cursor_fetch cciMsg dec c rs how = (.ok (some row), c', rs') →
      c' = { c with cursor_pos := c.cursor_pos + 1 } ∧
      rs'.pos = rs.pos + 1) := by
  have h2 : ¬(how < 0 ∨ 1 < how) := by omega
  constructor
  · intro hp
    have h3 : ¬(1 ≤ rs.pos + 0 ∧ rs.pos + 0 ≤ (rs.rows.length : Int)) := by
      simpa using hp
    simp only [cursor_fetch, if_neg hs, cci_cursor]
    rw [if_neg h2, if_neg h3, if_pos rfl]
    simp
  · intro row c' rs' heq
    simp only [cursor_fetch, if_neg hs, cci_cursor, cci_fetch] at heq
    rw [if_neg h2] at heq
    repeat split at heq
    all_goals simp_all [CCI_ER_NO_MORE_DATA]
    by_cases hf : rs.fetchRes < 0
    · rw [if_pos hf] at heq
      simp at heq
    · rw [if_neg hf] at heq
      rcases hR : (if how = 0 then
        row_to_tuple cciMsg dec c
          { rows := rs.rows, pos := rs.pos, fetchRes := rs.fetchRes }
      else
        row_to_dict cciMsg dec c
          { rows := rs.rows, pos := rs.pos, fetchRes := rs.fetchRes })
        with e | row0
      · rw [hR] at heq
        simp at heq
      · rw [hR] at heq
        by_cases ha : 0 ≤ rs.pos ∧ rs.pos + 1 ≤ (rs.rows.length : Int)
        · rw [if_pos ha] at heq
          norm_num at heq
          exact ⟨heq.2.1.symm, by rw [← heq.2.2]⟩
        · rw [if_neg ha] at heq
          norm_num at heq
          exact ⟨heq.2.1.symm, by rw [← heq.2.2]⟩

/-- A cursor positioned on a one-row, one-INT-column result set. -/
def c5Cursor : Cursor :=
  { Cursor.init 1 with
      handle := 1
      col_count := 1
      sql_type := SQLX_CMD_SELECT
      row_count := 1
      col_info := some [{ ColInfo.dflt with
        type := CCI_U_TYPE_INT
        name := "a" }] }

def c5RS : ResultSet :=
  { rows := [[{ Cell.dflt with asInt := ⟨0, 0, 42⟩ }]], pos := 1,
    fetchRes := 0 }

theorem C5_fetch_row_semantics_witness :
    c5Cursor.state ≠ CursorState.closed ∧ ((0 : Int) ≤ 0 ∧ (0 : Int) ≤ 1) ∧
    cursor_fetch (fun _ => Option.none) (fun _ r => some r) c5Cursor c5RS 0 =
      (.ok (some (.tuple [.int 42])),
        { c5Cursor with cursor_pos := c5Cursor.cursor_pos + 1 },
        { c5RS with pos := 2 }) ∧
    ({ c5RS with pos := 2 } : ResultSet).pos = c5RS.pos + 1 :=
  ⟨by decide, ⟨by decide, by decide⟩, rfl,
    ((C5_fetch_row_semantics (fun _ => Option.none) (fun _ r => some r)
      c5Cursor c5RS 0 (by decide) (by decide) (by decide)).2
      (.tuple [.int 42]) _ _ rfl).2⟩

set_option maxHeartbeats 1600000 in
/-- Claim C9: for `fetch_lob(col, lob)` the LOB kind stored into the lob
object is decided by the declared wire type of column 1 of the current
result set, not by the requested column `col`: on a fetch that succeeds,
`lob.type` is BLOB — and the value is read with the BLOB access type from
column `col` — exactly when column 1's type is `CCI_U_TYPE_BLOB`, and
otherwise the value is read as CLOB. -/
theorem C9_fetch_lob_first_column_kind (cciMsg : Int → Option String)
    (c : Cursor) (rs : ResultSet) (col : Int) (lob : Lob)
    (hs : c.state ≠ .closed)
    (hpos : 1 ≤ rs.pos ∧ rs.pos ≤ (rs.rows.length : Int)) :
    ∀ u c' rs' lob',
      cursor_fetch_lob cciMsg c rs col lob = (.ok u, c', rs', lob') →
      ((resultInfoAt c.col_info 1).type = CCI_U_TYPE_BLOB →
        lob'.type = CUBRID_BLOB ∧
        lob'.blob =
          some ((currentRow rs).getD (col - 1).toNat Cell.dflt).asBlob.val) ∧
      ((resultInfoAt c.col_info 1).type ≠ CCI_U_TYPE_BLOB →
        lob'.type = CUBRID_CLOB ∧
        lob'.clob =
          some ((currentRow rs).getD (col - 1).toNat Cell.dflt).asClob.val) := by
  intro u c' rs' lob'
  simp only [cursor_fetch_lob, if_neg hs, cci_cursor, cci_fetch]
  repeat' split
  all_goals intro heq
  all_goals simp_all [CCI_ER_NO_MORE_DATA, currentRow]
  all_goals obtain ⟨hc, hrs, hl⟩ := heq
  all_goals subst hc
  all_goals subst hrs
  all_goals subst hl
  all_goals constructor
  all_goals rfl

/-- A two-column result set whose first column is declared BLOB; the second
column is the one whose LOB is requested. -/
def c9Cursor : Cursor :=
  { Cursor.init 1 with
      handle := 1
      col_count := 2
      sql_type := SQLX_CMD_SELECT
      row_count := 1
      col_info := some
        [{ ColInfo.dflt with type := CCI_U_TYPE_BLOB, name := "b" },
         { ColInfo.dflt with type := CCI_U_TYPE_CLOB, name := "c" }] }

def c9RS : ResultSet :=
  { rows := [[{ Cell.dflt with asBlob := ⟨0, 0, 11⟩ },
              { Cell.dflt with asBlob := ⟨0, 0, 77⟩, asClob := ⟨0, 0, 88⟩ }]],
    pos := 1, fetchRes := 0 }

theorem C9_fetch_lob_first_column_kind_witness :
    c9Cursor.state ≠ CursorState.closed ∧
    (1 ≤ c9RS.pos ∧ c9RS.pos ≤ (c9RS.rows.length : Int)) ∧
    (((resultInfoAt c9Cursor.col_info 1).type = CCI_U_TYPE_BLOB →
        (⟨1, some 77, Option.none, 0, CUBRID_BLOB⟩ : Lob).type = CUBRID_BLOB ∧
        (⟨1, some 77, Option.none, 0, CUBRID_BLOB⟩ : Lob).blob =
          some ((currentRow c9RS).getD ((2 : Int) - 1).toNat
            Cell.dflt).asBlob.val) ∧
      ((resultInfoAt c9Cursor.col_info 1).type ≠ CCI_U_TYPE_BLOB →
        (⟨1, some 77, Option.none, 0, CUBRID_BLOB⟩ : Lob).type = CUBRID_CLOB ∧
        (⟨1, some 77, Option.none, 0, CUBRID_BLOB⟩ : Lob).clob =
          some ((currentRow c9RS).getD ((2 : Int) - 1).toNat
            Cell.dflt).asClob.val)) :=
  ⟨by decide, by decide,
    C9_fetch_lob_first_column_kind (fun _ => Option.none) c9Cursor c9RS 2
      (Lob.init 1) (by decide) (by decide) () _ _ _ rfl⟩

/-- Claim C10: for every declared element type other than BIT/VARBIT,
collection build passes wire type `CCI_U_TYPE_STRING` — not the
caller-supplied element type — to the transport's `cci_set_make`. -/
theorem C10_set_import_string_wire (elems : List (Option String)) (ty : Int)
    (h1 : ty ≠ CCI_U_TYPE_BIT) (h2 : ty ≠ CCI_U_TYPE_VARBIT) :
    ∀ m, set_import elems ty = .ok m → m.utype = CCI_U_TYPE_STRING := by
  intro m h
  unfold set_import at h
  rcases hval : set_import_validate elems with e | pairs <;> rw [hval] at h
  · exact nomatch h
  · simp only [if_neg (show ¬(ty = CCI_U_TYPE_BIT ∨ ty = CCI_U_TYPE_VARBIT)
      from by simp [h1, h2])] at h
    cases h
    rfl

theorem C10_set_import_string_wire_witness :
    CCI_U_TYPE_INT ≠ CCI_U_TYPE_BIT ∧ CCI_U_TYPE_INT ≠ CCI_U_TYPE_VARBIT ∧
    set_import [some "1", some "NULL"] CCI_U_TYPE_INT =
      .ok ⟨CCI_U_TYPE_STRING, [.strElem "1", .nullElem]⟩ ∧
    (SetMade.mk CCI_U_TYPE_STRING [.strElem "1", .nullElem]).utype =
      CCI_U_TYPE_STRING :=
  ⟨by decide, by decide, rfl,
    C10_set_import_string_wire [some "1", some "NULL"] CCI_U_TYPE_INT
      (by decide) (by decide) ⟨CCI_U_TYPE_STRING, [.strElem "1", .nullElem]⟩
      rfl⟩

/-- The only error the element-validation loop ever produces is the
invalid-parameter raise. -/
theorem set_import_validate_error :
    ∀ (elems : List (Option String)) (e : PyErr),
      set_import_validate elems = .error e →
      e = handle_error (fun _ => Option.none) CUBRID_ER_INVALID_PARAM
        Option.none := by
  intro elems
  induction elems with
  | nil => intro e h; exact nomatch h
  | cons a rest ih =>
      intro e h
      match a with
      | Option.none =>
          simp [set_import_validate] at h
          exact h.symm
      | some s =>
          by_cases h0 : s.length = 0
          · simp [set_import_validate, h0] at h
            exact h.symm
          · simp only [set_import_validate, if_neg h0] at h
            rcases hv : set_import_validate rest with e' | ps <;> rw [hv] at h
            · simp [Except.map] at h
              rw [← h]
              exact ih e' hv
            · exact nomatch h

/-- Validation keeps the elements aligned: the `k`-th validated pair carries
the `k`-th element's text and its `"NULL"`-indicator. -/
theorem set_import_validate_get :
    ∀ (elems : List (Option String)) (pairs : List (String × Bool)),
      set_import_validate elems = .ok pairs →
      ∀ (k : Nat) (s : String), elems[k]? = some (some s) →
        pairs[k]? = some (s, decide (s = "NULL")) := by
  intro elems
  induction elems with
  | nil => intro pairs h k s hk; exact nomatch hk
  | cons a rest ih =>
      intro pairs h k s hk
      match a with
      | Option.none => exact nomatch h
      | some s0 =>
          by_cases h0 : s0.length = 0
          · simp [set_import_validate, h0] at h
          · simp only [set_import_validate, if_neg h0] at h
            rcases hv : set_import_validate rest with e' | ps <;> rw [hv] at h
            · exact nomatch h
            · simp [Except.map] at h
              subst h
              match k with
              | 0 =>
                  simp at hk
                  subst hk
                  simp
              | Nat.succ k' =>
                  simp at hk
                  simpa using ih ps hv k' s hk

/-- A malformed (non-'0'/'1') non-null element makes the whole BIT/VARBIT
conversion loop abort with the invalid-parameter raise. -/
theorem set_import_bits_error :
    ∀ (pairs : List (String × Bool)) (k : Nat) (s : String),
      pairs[k]? = some (s, false) → str2bit s = Option.none →
      set_import_bits pairs =
        .error (handle_error (fun _ => Option.none) CUBRID_ER_INVALID_PARAM
          Option.none) := by
  intro pairs
  induction pairs with
  | nil => intro k s hk _; exact nomatch hk
  | cons p rest ih =>
      intro k s hk hsb
      obtain ⟨s0, b0⟩ := p
      match k with
      | 0 =>
          simp at hk
          obtain ⟨hs0, hb0⟩ := hk
          subst hs0
          subst hb0
          simp [set_import_bits, hsb]
      | Nat.succ k' =>
          simp at hk
          have hr := ih k' s hk hsb
          by_cases hb : b0 = true
          · simp [set_import_bits, hb, hr, Except.map]
          · rcases hs0 : str2bit s0 with _ | buf
            · simp [set_import_bits, hb, hs0]
            · simp [set_import_bits, hb, hs0, hr, Except.map]

/-- On a successful BIT/VARBIT conversion, the `k`-th element is null when
its indicator was set, and otherwise is the `str2bit` packing of its text
with byte count `strlen / 8 + 1`. -/
theorem set_import_bits_get :
    ∀ (pairs : List (String × Bool)) (es : List SetElem),
      set_import_bits pairs = .ok es →
      ∀ (k : Nat) (s : String) (b : Bool), pairs[k]? = some (s, b) →
        (b = true → es[k]? = some .nullElem) ∧
        (b = false → ∃ buf, str2bit s = some buf ∧
          es[k]? = some (.bitElem buf ((s.length : Int) / 8 + 1))) := by
  intro pairs
  induction pairs with
  | nil => intro es h k s b hk; exact nomatch hk
  | cons p rest ih =>
      intro es h k s b hk
      obtain ⟨s0, b0⟩ := p
      by_cases hb0 : b0 = true
      · simp only [set_import_bits, if_pos hb0] at h
        rcases hrest : set_import_bits rest with e | es' <;> rw [hrest] at h
        · exact nomatch h
        · simp [Except.map] at h
          subst h
          match k with
          | 0 =>
              simp at hk
              obtain ⟨hs, hb⟩ := hk
              subst hs
              subst hb
              exact ⟨fun _ => by simp, fun hf => by simp [hb0] at hf⟩
          | Nat.succ k' =>
              simp at hk
              simpa using ih es' hrest k' s b hk
      · rcases hs0 : str2bit s0 with _ | buf
        · simp [set_import_bits, hb0, hs0] at h
        · simp only [set_import_bits, if_neg hb0, hs0] at h
          rcases hrest : set_import_bits rest with e | es' <;> rw [hrest] at h
          · exact nomatch h
          · simp [Except.map] at h
            subst h
            match k with
            | 0 =>
                simp at hk
                obtain ⟨hs, hb⟩ := hk
                subst hs
                subst hb
                exact ⟨fun ht => absurd ht hb0, fun _ => ⟨buf, hs0, by simp⟩⟩
            | Nat.succ k' =>
                simp at hk
                simpa using ih es' hrest k' s b hk

/-- An `Option`-valued fold succeeds exactly when every step succeeds. -/
theorem foldlM_option_isSome {α β : Type} (f : β → α → Option β)
    (p : α → Bool) (hf : ∀ b a, (f b a).isSome = p a) :
    ∀ (l : List α) (b : β), (l.foldlM f b).isSome = l.all p := by
  intro l
  induction l with
  | nil => intro b; rfl
  | cons a t ih =>
      intro b
      rw [List.all_cons, ← hf b a]
      cases hfa : f b a with
      | none => simp [List.foldlM, hfa]
      | some b' => simp [List.foldlM, hfa, ih b']

theorem str2bit_step_isSome (cs : List Char) (len t : Nat) :
    ∀ (buf : List Nat) (i : Nat), (str2bit_step cs len t buf i).isSome =
      (decide (cs.getD (len - i - 1) ' ' = '1') ||
        decide (cs.getD (len - i - 1) ' ' = '0')) := by
  intro buf i
  unfold str2bit_step
  dsimp only
  split
  · simp_all
  · split <;> simp_all

/-- `_cubrid_str2bit` succeeds exactly on strings of '0'/'1' characters. -/
theorem str2bit_isSome (s : String) :
    (str2bit s).isSome = true ↔ ∀ ch ∈ s.data, ch = '1' ∨ ch = '0' := by
  unfold str2bit
  rw [foldlM_option_isSome
    (str2bit_step s.data s.data.length
      (if s.data.length % 8 = 0 then 1 else 0))
    (fun i => decide (s.data.getD (s.data.length - i - 1) ' ' = '1') ||
      decide (s.data.getD (s.data.length - i - 1) ' ' = '0'))
    (str2bit_step_isSome s.data s.data.length _)]
  rw [List.all_eq_true]
  constructor
  · intro h ch hch
    obtain ⟨j, hj⟩ := List.mem_iff_getElem?.mp hch
    have hjl : j < s.data.length := by
      by_contra hc
      rw [List.getElem?_eq_none (by omega)] at hj
      exact nomatch hj
    have hm := h (s.data.length - 1 - j) (List.mem_range.mpr (by omega))
    have hidx : s.data.length - (s.data.length - 1 - j) - 1 = j := by omega
    rw [hidx] at hm
    have hgd : s.data.getD j ' ' = ch := by
      rw [List.getD_eq_getElem?_getD, hj]
      rfl
    rw [hgd] at hm
    simpa using hm
  · intro h i hi
    have hil : i < s.data.length := List.mem_range.mp hi
    have hch : s.data.getD (s.data.length - i - 1) ' ' ∈ s.data := by
      rw [List.getD_eq_getElem?_getD]
      cases hg : s.data[s.data.length - i - 1]? with
      | none =>
          have := List.getElem?_eq_none_iff.mp hg
          omega
      | some ch' =>
          have : ch' ∈ s.data := List.getElem?_mem hg
          simpa [hg] using this
    simpa using h _ hch

/-- Claim C7: in collection build, every element whose text is the literal
`"NULL"` is marked null in the value handed to `cci_set_make` rather than
bound as the four-character string (for any declared element type); for
BIT/VARBIT element types a malformed non-null element aborts the whole
build with the invalid-parameter error, where well-formed means consisting
only of '0'/'1' characters (`str2bit` succeeds exactly on those), and each
well-formed element is packed by `str2bit` into a byte buffer of
`strlen / 8 + 1` bytes. -/
theorem C7_set_import_null_and_bits (elems : List (Option String))
    (ty : Int) :
    (∀ m, set_import elems ty = .ok m →
      ∀ (k : Nat) (s : String), elems[k]? = some (some s) → s = "NULL" →
        m.elems[k]? = some SetElem.nullElem) ∧
    ((ty = CCI_U_TYPE_BIT ∨ ty = CCI_U_TYPE_VARBIT) →
      (∃ (k : Nat) (s : String), elems[k]? = some (some s) ∧ s ≠ "NULL" ∧
        str2bit s = Option.none) →
      set_import elems ty =
        .error (handle_error (fun _ => Option.none) CUBRID_ER_INVALID_PARAM
          Option.none)) ∧
    ((ty = CCI_U_TYPE_BIT ∨ ty = CCI_U_TYPE_VARBIT) →
      ∀ m, set_import elems ty = .ok m →
      ∀ (k : Nat) (s : String), elems[k]? = some (some s) → s ≠ "NULL" →
        ∃ buf, str2bit s = some buf ∧
          m.elems[k]? = some (.bitElem buf ((s.length : Int) / 8 + 1))) ∧
    (∀ s' : String, (str2bit s').isSome = true ↔
      ∀ ch ∈ s'.data, ch = '1' ∨ ch = '0') := by
  refine ⟨?_, ?_, ?_, str2bit_isSome⟩
  · intro m h k s hk hnull
    unfold set_import at h
    rcases hval : set_import_validate elems with e | pairs <;> rw [hval] at h
    · exact nomatch h
    · dsimp only at h
      subst hnull
      have hp' : pairs[k]? = some ("NULL", true) := by
        simpa using set_import_validate_get elems pairs hval k "NULL" hk
      by_cases hty : ty = CCI_U_TYPE_BIT ∨ ty = CCI_U_TYPE_VARBIT
      · rw [if_pos hty] at h
        rcases hbits : set_import_bits pairs with e | es <;> rw [hbits] at h
        · exact nomatch h
        · cases h
          exact (set_import_bits_get pairs es hbits k "NULL" true hp').1 rfl
      · rw [if_neg hty] at h
        cases h
        simp [hp']
  · rintro hty ⟨k, s, hk, hnn, hsb⟩
    unfold set_import
    rcases hval : set_import_validate elems with e | pairs
    · rw [set_import_validate_error elems e hval]
    · have hp' : pairs[k]? = some (s, false) := by
        simpa [hnn] using set_import_validate_get elems pairs hval k s hk
      dsimp only
      rw [if_pos hty, set_import_bits_error pairs k s hp' hsb]
  · rintro hty m h k s hk hnn
    unfold set_import at h
    rcases hval : set_import_validate elems with e | pairs <;> rw [hval] at h
    · exact nomatch h
    · dsimp only at h
      rw [if_pos hty] at h
      rcases hbits : set_import_bits pairs with e | es <;> rw [hbits] at h
      · exact nomatch h
      · cases h
        have hp' : pairs[k]? = some (s, false) := by
          simpa [hnn] using set_import_validate_get elems pairs hval k s hk
        exact (set_import_bits_get pairs es hbits k s false hp').2 rfl

theorem C7_set_import_null_and_bits_witness :
    set_import [some "NULL", some "0110"] CCI_U_TYPE_BIT =
      .ok ⟨CCI_U_TYPE_BIT, [.nullElem, .bitElem [6, 0] 1]⟩ ∧
    (SetMade.mk CCI_U_TYPE_BIT [.nullElem, .bitElem [6, 0] 1]).elems[0]? =
      some SetElem.nullElem ∧
    (∃ buf, str2bit "0110" = some buf ∧
      (SetMade.mk CCI_U_TYPE_BIT
        [.nullElem, .bitElem [6, 0] 1]).elems[1]? =
        some (.bitElem buf ((("0110" : String).length : Int) / 8 + 1))) ∧
    set_import [some "012"] CCI_U_TYPE_BIT =
      .error (handle_error (fun _ => Option.none) CUBRID_ER_INVALID_PARAM
        Option.none) :=
  ⟨rfl,
    (C7_set_import_null_and_bits [some "NULL", some "0110"]
      CCI_U_TYPE_BIT).1 _ rfl 0 "NULL" rfl rfl,
    (C7_set_import_null_and_bits [some "NULL", some "0110"]
      CCI_U_TYPE_BIT).2.2.1 (Or.inl rfl) _ rfl 1 "0110" rfl (by decide),
    (C7_set_import_null_and_bits [some "012"] CCI_U_TYPE_BIT).2.1
      (Or.inl rfl) ⟨0, "012", rfl, by decide, rfl⟩⟩

/-- Whenever the export chunk loop aborts with an error, the output file has
been closed and unlinked. -/
theorem lob_export_loop_cleanup (cciMsg : Int → Option String)
    (rdr : Int → Except (Int × TCCIError) (List Nat)) (wr : Int → Bool)
    (lob_size : Int) :
    ∀ (fuel : Nat) (pos : Int) (fs : FileSt) (e : PyErr) (fs' : FileSt),
      lob_export_loop cciMsg rdr wr lob_size fuel pos fs = (.err e, fs') →
      fs'.present = false ∧ fs'.openFd = false := by
  intro fuel
  induction fuel with
  | zero => intro pos fs e fs' h; exact nomatch h
  | succ n ih =>
      intro pos fs e fs' h
      rw [lob_export_loop] at h
      rcases hr : rdr pos with ⟨ec, err⟩ | bytes <;>
        (rw [hr] at h; dsimp only at h)
      · injection h with _ h2
        subst h2
        exact ⟨rfl, rfl⟩
      · by_cases hw : wr pos
        · rw [if_pos hw] at h
          by_cases hend : pos + (bytes.length : Int) = lob_size
          · rw [if_pos hend] at h
            injection h with h1 _
            exact nomatch h1
          · rw [if_neg hend] at h
            exact ih _ _ _ _ h
        · rw [if_neg hw] at h
          injection h with _ h2
          subst h2
          exact ⟨rfl, rfl⟩

/-- Whenever the import chunk loop aborts with an error, the source file
descriptor and the partially written LOB have been closed. -/
theorem lob_import_loop_cleanup (cciMsg : Int → Option String)
    (frd : Int → Option (List Nat))
    (lw : Int → Except (Int × TCCIError) Unit) :
    ∀ (fuel : Nat) (pos : Int) (st : ImportSt) (e : PyErr) (st' : ImportSt),
      lob_import_loop cciMsg frd lw fuel pos st = (.err e, st') →
      st'.lobClosed = true ∧ st'.fdOpen = false := by
  intro fuel
  induction fuel with
  | zero => intro pos st e st' h; exact nomatch h
  | succ n ih =>
      intro pos st e st' h
      rw [lob_import_loop] at h
      rcases hr : frd pos with _ | bytes <;>
        (rw [hr] at h; dsimp only at h)
      · injection h with _ h2
        subst h2
        exact ⟨rfl, rfl⟩
      · by_cases hz : bytes.length = 0
        · rw [if_pos hz] at h
          injection h with h1 _
          exact nomatch h1
        · rw [if_neg hz] at h
          rcases hl : lw pos with ⟨ec, err⟩ | u <;>
            (rw [hl] at h; dsimp only at h)
          · injection h with _ h2
            subst h2
            exact ⟨rfl, rfl⟩
          · exact ih _ _ _ _ h

/-- Claim C8: if any transport read or local file write fails during LOB
export, the whole transfer aborts with the translated error, the output
file is closed and the partially written file is removed, so no partial
file remains (the entry-check failures leave no file either); if a file
read or transport write fails during LOB import, the partially written LOB
is closed (and the source descriptor too) before the error is raised. -/
theorem C8_lob_transfer_cleanup (cciMsg : Int → Option String)
    (rdr : Int → Except (Int × TCCIError) (List Nat)) (wr : Int → Bool)
    (frd : Int → Option (List Nat))
    (lw : Int → Except (Int × TCCIError) Unit) (lob_size : Int) :
    (∀ (fuel : Nat) (pos : Int) (fs : FileSt) (e : PyErr) (fs' : FileSt),
      lob_export_loop cciMsg rdr wr lob_size fuel pos fs = (.err e, fs') →
      fs'.present = false ∧ fs'.openFd = false) ∧
    (∀ (lob : Lob) (openOk : Bool) (fuel : Nat) (e : PyErr) (fs' : FileSt),
      lob_export cciMsg lob openOk rdr wr lob_size fuel = (.err e, fs') →
      fs'.present = false) ∧
    (∀ (fuel : Nat) (pos : Int) (st : ImportSt) (e : PyErr) (st' : ImportSt),
      lob_import_loop cciMsg frd lw fuel pos st = (.err e, st') →
      st'.lobClosed = true ∧ st'.fdOpen = false) := by
  refine ⟨lob_export_loop_cleanup cciMsg rdr wr lob_size, ?_,
    lob_import_loop_cleanup cciMsg frd lw⟩
  intro lob openOk fuel e fs' h
  unfold lob_export at h
  by_cases h1 : lob.blob = Option.none ∧ lob.clob = Option.none
  · rw [if_pos h1] at h
    injection h with _ h2
    subst h2
    rfl
  · rw [if_neg h1] at h
    by_cases ho : openOk
    · rw [if_neg (by simpa using ho)] at h
      exact (lob_export_loop_cleanup cciMsg rdr wr lob_size fuel 0
        ⟨true, true, []⟩ e fs' h).1
    · rw [if_pos (by simpa using ho)] at h
      injection h with _ h2
      subst h2
      rfl

theorem C8_lob_transfer_cleanup_witness :
    lob_export_loop (fun _ => Option.none)
      (fun p => if p = 0 then .ok [1, 2] else .error (-5, ⟨0, ""⟩))
      (fun _ => true) 10 3 0 ⟨true, true, []⟩ =
      (.err (handle_error (fun _ => Option.none) (-5) (some ⟨0, ""⟩)),
        ⟨false, false, [1, 2]⟩) ∧
    (FileSt.mk false false [1, 2]).present = false ∧
    (FileSt.mk false false [1, 2]).openFd = false ∧
    lob_import_loop (fun _ => Option.none) (fun _ => Option.none)
      (fun _ => .ok ()) 2 0 ⟨true, false⟩ =
      (.err (handle_error (fun _ => Option.none) CUBRID_ER_READ_FILE
        Option.none), ⟨false, true⟩) ∧
    (ImportSt.mk false true).lobClosed = true :=
  ⟨rfl,
    ((C8_lob_transfer_cleanup (fun _ => Option.none)
      (fun p => if p = 0 then .ok [1, 2] else .error (-5, ⟨0, ""⟩))
      (fun _ => true) (fun _ => Option.none) (fun _ => .ok ()) 10).1
      3 0 ⟨true, true, []⟩ _ _ rfl).1,
    ((C8_lob_transfer_cleanup (fun _ => Option.none)
      (fun p => if p = 0 then .ok [1, 2] else .error (-5, ⟨0, ""⟩))
      (fun _ => true) (fun _ => Option.none) (fun _ => .ok ()) 10).1
      3 0 ⟨true, true, []⟩ _ _ rfl).2,
    rfl,
    ((C8_lob_transfer_cleanup (fun _ => Option.none)
      (fun p => if p = 0 then .ok [1, 2] else .error (-5, ⟨0, ""⟩))
      (fun _ => true) (fun _ => Option.none) (fun _ => .ok ()) 10).2.2
      2 0 ⟨true, false⟩ _ _ rfl).1⟩

end Cubrid
